import Mathlib

/-!
# Verification of the bandwidth monitoring agent/collector

Shallow embedding of the telemetry agent (`agent.py`) and the collector
(`simple_ui_collector.py`): counter-rate derivation, the reporting loop,
the peer-flow accumulator, collector ingestion, the alert engine and the
topology aggregator.  Machine floats of the source are modelled as exact
rationals; Python's `round(x, n)` (round half to even) is modelled exactly.
-/

namespace Bandwidth

/-! ## Numeric helpers -/

/-- Round half to even to an integer, as Python's builtin `round` does. -/
def roundHalfEven (q : ℚ) : ℤ :=
  let f : ℤ := ⌊q⌋
  let frac : ℚ := q - f
  if frac < 1/2 then f
  else if 1/2 < frac then f + 1
  else if f % 2 = 0 then f else f + 1

/-- Python's `round(q, ndigits)`. -/
def pyRound (q : ℚ) (ndigits : ℕ) : ℚ :=
  (roundHalfEven (q * ((10 : ℚ) ^ ndigits)) : ℚ) / ((10 : ℚ) ^ ndigits)

theorem roundHalfEven_zero : roundHalfEven 0 = 0 := by
  simp [roundHalfEven]

theorem pyRound_zero (n : ℕ) : pyRound 0 n = 0 := by
  simp [pyRound, roundHalfEven_zero]

theorem roundHalfEven_nonneg {q : ℚ} (hq : 0 ≤ q) : 0 ≤ roundHalfEven q := by
  unfold roundHalfEven
  have h0 : (0 : ℤ) ≤ ⌊q⌋ := Int.le_floor.2 (by exact_mod_cast hq)
  dsimp only
  split
  · exact h0
  · split
    · omega
    · split
      · exact h0
      · omega

theorem pyRound_nonneg {q : ℚ} (hq : 0 ≤ q) (n : ℕ) : 0 ≤ pyRound q n := by
  unfold pyRound
  have h1 : (0 : ℚ) ≤ q * ((10 : ℚ) ^ n) := by positivity
  have h2 : (0 : ℤ) ≤ roundHalfEven (q * ((10 : ℚ) ^ n)) := roundHalfEven_nonneg h1
  have h3 : (0 : ℚ) ≤ (roundHalfEven (q * ((10 : ℚ) ^ n)) : ℚ) := by exact_mod_cast h2
  positivity

/-! ## Counter-Rate Engine (agent.py main reporting loop)

`psutil` counters are cumulative integers.  The loop computes, per NIC,
`bytes_sent_delta = max(0, current.bytes_sent - last.bytes_sent)` and
`sent_bps = bytes_sent_delta / time_delta` (similarly for recv and for the
four disk counters). -/

structure NetCounters where
  bytes_sent : ℤ
  bytes_recv : ℤ
deriving DecidableEq, Repr

structure DiskCounters where
  read_bytes : ℤ
  write_bytes : ℤ
  read_count : ℤ
  write_count : ℤ
deriving DecidableEq, Repr

/-- `max(0, current_counts.bytes_sent - last_counts.bytes_sent)` -/
def bytesSentDelta (curr last : NetCounters) : ℤ :=
  max 0 (curr.bytes_sent - last.bytes_sent)

/-- `max(0, current_counts.bytes_recv - last_counts.bytes_recv)` -/
def bytesRecvDelta (curr last : NetCounters) : ℤ :=
  max 0 (curr.bytes_recv - last.bytes_recv)

/-- `sent_bps = bytes_sent_delta / time_delta` -/
def sentBps (timeDelta : ℚ) (curr last : NetCounters) : ℚ :=
  (bytesSentDelta curr last : ℚ) / timeDelta

/-- `recv_bps = bytes_recv_delta / time_delta` -/
def recvBps (timeDelta : ℚ) (curr last : NetCounters) : ℚ :=
  (bytesRecvDelta curr last : ℚ) / timeDelta

/-- Per-disk I/O rates of one reporting cycle (`disk_io_rates[disk]`). -/
structure DiskIORates where
  read_Bps : ℚ
  write_Bps : ℚ
  read_ops_ps : ℚ
  write_ops_ps : ℚ
deriving DecidableEq, Repr

/-- The disk branch of the loop: clamped deltas divided by `time_delta`,
rounded to two decimals. -/
def diskIoRates (timeDelta : ℚ) (curr last : DiskCounters) : DiskIORates :=
  let read_bytes_delta : ℤ := max 0 (curr.read_bytes - last.read_bytes)
  let write_bytes_delta : ℤ := max 0 (curr.write_bytes - last.write_bytes)
  let read_count_delta : ℤ := max 0 (curr.read_count - last.read_count)
  let write_count_delta : ℤ := max 0 (curr.write_count - last.write_count)
  { read_Bps := pyRound ((read_bytes_delta : ℚ) / timeDelta) 2
    write_Bps := pyRound ((write_bytes_delta : ℚ) / timeDelta) 2
    read_ops_ps := pyRound ((read_count_delta : ℚ) / timeDelta) 2
    write_ops_ps := pyRound ((write_count_delta : ℚ) / timeDelta) 2 }

theorem sentBps_eq_zero_of_reset {timeDelta : ℚ} {curr last : NetCounters}
    (h : curr.bytes_sent < last.bytes_sent) : sentBps timeDelta curr last = 0 := by
  have hd : bytesSentDelta curr last = 0 := by
    unfold bytesSentDelta; omega
  simp [sentBps, hd]

theorem recvBps_eq_zero_of_reset {timeDelta : ℚ} {curr last : NetCounters}
    (h : curr.bytes_recv < last.bytes_recv) : recvBps timeDelta curr last = 0 := by
  have hd : bytesRecvDelta curr last = 0 := by
    unfold bytesRecvDelta; omega
  simp [recvBps, hd]

theorem sentBps_nonneg {timeDelta : ℚ} (hT : 0 < timeDelta) (curr last : NetCounters) :
    0 ≤ sentBps timeDelta curr last := by
  have : (0 : ℚ) ≤ (bytesSentDelta curr last : ℚ) := by
    have : (0 : ℤ) ≤ bytesSentDelta curr last := le_max_left _ _
    exact_mod_cast this
  exact div_nonneg this hT.le

theorem recvBps_nonneg {timeDelta : ℚ} (hT : 0 < timeDelta) (curr last : NetCounters) :
    0 ≤ recvBps timeDelta curr last := by
  have : (0 : ℚ) ≤ (bytesRecvDelta curr last : ℚ) := by
    have : (0 : ℤ) ≤ bytesRecvDelta curr last := le_max_left _ _
    exact_mod_cast this
  exact div_nonneg this hT.le

theorem diskIoRates_read_Bps_nonneg {timeDelta : ℚ} (hT : 0 < timeDelta)
    (curr last : DiskCounters) : 0 ≤ (diskIoRates timeDelta curr last).read_Bps := by
  unfold diskIoRates
  refine pyRound_nonneg (div_nonneg ?_ hT.le) 2
  have : (0 : ℤ) ≤ max 0 (curr.read_bytes - last.read_bytes) := le_max_left _ _
  exact_mod_cast this

theorem diskIoRates_write_Bps_nonneg {timeDelta : ℚ} (hT : 0 < timeDelta)
    (curr last : DiskCounters) : 0 ≤ (diskIoRates timeDelta curr last).write_Bps := by
  unfold diskIoRates
  refine pyRound_nonneg (div_nonneg ?_ hT.le) 2
  have : (0 : ℤ) ≤ max 0 (curr.write_bytes - last.write_bytes) := le_max_left _ _
  exact_mod_cast this

/-- C5: for every counter source (NIC or disk) and consecutive cumulative
readings (prev, curr) with curr < prev, the derived per-second rate for that
source is 0 and derived rates are never negative. -/
theorem C5_counter_reset_rate_zero
    (timeDelta : ℚ) (hT : 0 < timeDelta)
    (currN lastN : NetCounters) (currD lastD : DiskCounters)
    (hsent : currN.bytes_sent < lastN.bytes_sent)
    (hrecv : currN.bytes_recv < lastN.bytes_recv)
    (hrb : currD.read_bytes < lastD.read_bytes)
    (hwb : currD.write_bytes < lastD.write_bytes)
    (hrc : currD.read_count < lastD.read_count)
    (hwc : currD.write_count < lastD.write_count) :
    sentBps timeDelta currN lastN = 0 ∧
    recvBps timeDelta currN lastN = 0 ∧
    diskIoRates timeDelta currD lastD =
      { read_Bps := 0, write_Bps := 0, read_ops_ps := 0, write_ops_ps := 0 } ∧
    (∀ cn ln : NetCounters, 0 ≤ sentBps timeDelta cn ln ∧ 0 ≤ recvBps timeDelta cn ln) ∧
    (∀ cd ld : DiskCounters, 0 ≤ (diskIoRates timeDelta cd ld).read_Bps ∧
      0 ≤ (diskIoRates timeDelta cd ld).write_Bps) := by
  refine ⟨sentBps_eq_zero_of_reset hsent, recvBps_eq_zero_of_reset hrecv, ?_, ?_, ?_⟩
  · have h1 : max 0 (currD.read_bytes - lastD.read_bytes) = 0 := by omega
    have h2 : max 0 (currD.write_bytes - lastD.write_bytes) = 0 := by omega
    have h3 : max 0 (currD.read_count - lastD.read_count) = 0 := by omega
    have h4 : max 0 (currD.write_count - lastD.write_count) = 0 := by omega
    simp [diskIoRates, h1, h2, h3, h4, pyRound_zero]
  · exact fun cn ln => ⟨sentBps_nonneg hT cn ln, recvBps_nonneg hT cn ln⟩
  · exact fun cd ld => ⟨diskIoRates_read_Bps_nonneg hT cd ld,
      diskIoRates_write_Bps_nonneg hT cd ld⟩

/-- Witness for C5 at concrete counters. -/
theorem C5_counter_reset_rate_zero_witness :
    (0 : ℚ) < 2 ∧
    sentBps 2 ⟨5, 5⟩ ⟨10, 10⟩ = 0 ∧
    recvBps 2 ⟨5, 5⟩ ⟨10, 10⟩ = 0 ∧
    diskIoRates 2 ⟨1, 1, 1, 1⟩ ⟨9, 9, 9, 9⟩ =
      { read_Bps := 0, write_Bps := 0, read_ops_ps := 0, write_ops_ps := 0 } := by
  have h := C5_counter_reset_rate_zero 2 (by norm_num)
    ⟨5, 5⟩ ⟨10, 10⟩ ⟨1, 1, 1, 1⟩ ⟨9, 9, 9, 9⟩
    (by norm_num) (by norm_num) (by norm_num) (by norm_num) (by norm_num) (by norm_num)
  exact ⟨by norm_num, h.1, h.2.1, h.2.2.1⟩

/-! ## Peer-Traffic Correlator (agent.py `packet_handler` and the drain)

`peer_byte_counts` is a `defaultdict(int)` keyed by `(src_ip, dst_ip)`,
modelled as an association list.  Every mutation in the source happens
under `peer_data_lock` — the increment in `packet_handler` and the
copy-and-clear in the reporting loop — so a concurrent execution is a
serialization of these atomic operations; we model it as a trace of
events. -/

abbrev FlowKey := String × String

/-- `peer_byte_counts[traffic_key] += packet_size`. -/
def addBytes : List (FlowKey × ℕ) → FlowKey → ℕ → List (FlowKey × ℕ)
  | [], k, n => [(k, n)]
  | (k', m) :: rest, k, n =>
      if k' = k then (k', m + n) :: rest else (k', m) :: addBytes rest k n

/-- Total bytes held by an accumulator. -/
def sumBytes (l : List (FlowKey × ℕ)) : ℕ := (l.map Prod.snd).sum

theorem sumBytes_addBytes (l : List (FlowKey × ℕ)) (k : FlowKey) (n : ℕ) :
    sumBytes (addBytes l k n) = sumBytes l + n := by
  induction l with
  | nil => simp [addBytes, sumBytes]
  | cons p rest ih =>
      obtain ⟨k', m⟩ := p
      by_cases h : k' = k
      · simp [addBytes, h, sumBytes]
        omega
      · simp only [addBytes, if_neg h, sumBytes, List.map_cons, List.sum_cons]
        have := ih
        simp only [sumBytes] at this
        omega

/-- One lock-atomic operation on the accumulator: a packet-classification
increment, or the reporting loop's copy-and-clear drain. -/
inductive FlowEvent
  | add (key : FlowKey) (size : ℕ)
  | drain
deriving DecidableEq, Repr

/-- Accumulator contents plus the list of drained snapshots so far. -/
structure FlowTraceState where
  acc : List (FlowKey × ℕ)
  drains : List (List (FlowKey × ℕ))
deriving DecidableEq, Repr

/-- Effect of one atomic operation. -/
def flowStep (s : FlowTraceState) : FlowEvent → FlowTraceState
  | .add k n => { s with acc := addBytes s.acc k n }
  | .drain => { acc := [], drains := s.drains ++ [s.acc] }

/-- Run a trace of operations from the initial empty accumulator. -/
def runFlowEvents (evs : List FlowEvent) : FlowTraceState :=
  evs.foldl flowStep { acc := [], drains := [] }

/-- Sum of the packet sizes added by a trace. -/
def addedSum : List FlowEvent → ℕ
  | [] => 0
  | .add _ n :: rest => n + addedSum rest
  | .drain :: rest => addedSum rest

/-- Total bytes across all drained snapshots. -/
def drainedSum (s : FlowTraceState) : ℕ := (s.drains.map sumBytes).sum

def isAddEvent : FlowEvent → Bool
  | .add _ _ => true
  | .drain => false

theorem addedSum_append (l1 l2 : List FlowEvent) :
    addedSum (l1 ++ l2) = addedSum l1 + addedSum l2 := by
  induction l1 with
  | nil => simp [addedSum]
  | cons e rest ih =>
      cases e with
      | add k n => simp [addedSum, ih]; omega
      | drain => simp [addedSum, ih]

theorem flowStep_foldl_adds (as : List FlowEvent) (s : FlowTraceState)
    (h : ∀ e ∈ as, isAddEvent e = true) :
    (as.foldl flowStep s).drains = s.drains ∧
    sumBytes (as.foldl flowStep s).acc = sumBytes s.acc + addedSum as := by
  induction as generalizing s with
  | nil => simp [addedSum]
  | cons e rest ih =>
      cases e with
      | add k n =>
          have hrest : ∀ e ∈ rest, isAddEvent e = true := fun e he => h e (by simp [he])
          have := ih (flowStep s (.add k n)) hrest
          simpa [flowStep, addedSum, sumBytes_addBytes, Nat.add_assoc, Nat.add_comm,
            Nat.add_left_comm] using this
      | drain =>
          have : isAddEvent FlowEvent.drain = true := h _ (by simp)
          simp [isAddEvent] at this

/-- C9: draining is exactly-once per interval.  For any interleaving of
packet-classification adds with two drains (each operation atomic under
`peer_data_lock`), the two drained snapshots together account for exactly
the arithmetic sum of all added packet sizes — no byte lost or
double-counted. -/
theorem C9_drain_exactly_once (as1 as2 : List FlowEvent)
    (h1 : ∀ e ∈ as1, isAddEvent e = true)
    (h2 : ∀ e ∈ as2, isAddEvent e = true) :
    (runFlowEvents (as1 ++ [.drain] ++ as2 ++ [.drain])).drains.length = 2 ∧
    drainedSum (runFlowEvents (as1 ++ [.drain] ++ as2 ++ [.drain])) =
      addedSum (as1 ++ [.drain] ++ as2 ++ [.drain]) := by
  unfold runFlowEvents
  rw [List.foldl_append, List.foldl_append, List.foldl_append]
  set s0 : FlowTraceState := { acc := [], drains := [] } with hs0
  obtain ⟨hd1, ha1⟩ := flowStep_foldl_adds as1 s0 h1
  set s1 := as1.foldl flowStep s0 with hs1
  have hs2 : ([FlowEvent.drain].foldl flowStep s1) = { acc := [], drains := s1.drains ++ [s1.acc] } := by
    simp [flowStep]
  rw [hs2]
  set s2 : FlowTraceState := { acc := [], drains := s1.drains ++ [s1.acc] } with hs2d
  obtain ⟨hd3, ha3⟩ := flowStep_foldl_adds as2 s2 h2
  set s3 := as2.foldl flowStep s2 with hs3
  have hs4 : ([FlowEvent.drain].foldl flowStep s3) = { acc := [], drains := s3.drains ++ [s3.acc] } := by
    simp [flowStep]
  rw [hs4]
  constructor
  · simp [hd3, hs2d, hd1, hs0]
  · simp only [drainedSum, hd3, hs2d, hd1, hs0]
    simp only [List.nil_append, List.map_append, List.map_cons, List.map_nil, List.sum_append,
      List.sum_cons, List.sum_nil]
    have hacc2 : sumBytes s2.acc = 0 := by simp [hs2d, sumBytes]
    have ha1' : sumBytes s1.acc = addedSum as1 := by
      simpa [hs0, sumBytes] using ha1
    have ha3' : sumBytes s3.acc = addedSum as2 := by
      rw [ha3, hacc2]; omega
    rw [ha1', ha3']
    rw [addedSum_append, addedSum_append, addedSum_append]
    simp [addedSum]

/-- Closed witness for C9 on a concrete interferencing trace. -/
theorem C9_drain_exactly_once_witness :
    (runFlowEvents ([.add ("10.0.0.1", "10.0.0.2") 100, .add ("10.0.0.1", "10.0.0.2") 50] ++
      [.drain] ++ [.add ("10.0.0.2", "10.0.0.1") 7] ++ [.drain])).drains.length = 2 ∧
    drainedSum (runFlowEvents ([.add ("10.0.0.1", "10.0.0.2") 100,
      .add ("10.0.0.1", "10.0.0.2") 50] ++ [.drain] ++
      [.add ("10.0.0.2", "10.0.0.1") 7] ++ [.drain])) =
      addedSum ([.add ("10.0.0.1", "10.0.0.2") 100, .add ("10.0.0.1", "10.0.0.2") 50] ++
        [.drain] ++ [.add ("10.0.0.2", "10.0.0.1") 7] ++ [.drain]) :=
  C9_drain_exactly_once
    [.add ("10.0.0.1", "10.0.0.2") 100, .add ("10.0.0.1", "10.0.0.2") 50]
    [.add ("10.0.0.2", "10.0.0.1") 7]
    (by decide) (by decide)

/-! ## Report Assembler and reporting loop (agent.py `main`) -/

/-- Association-list lookup, modelling Python `dict` access. -/
def alookup {α : Type} (l : List (String × α)) (k : String) : Option α :=
  (l.find? (fun p => p.1 = k)).map Prod.snd

/-- Does the second character list occur at the head of the first? -/
def listHasHead : List Char → List Char → Bool
  | _, [] => true
  | [], _ :: _ => false
  | c :: cs, d :: ds => c = d && listHasHead cs ds

/-- Fuel-driven splitter on a separator (leftmost, non-overlapping), the
semantics of Python's `str.split(sep)` for a non-empty separator. -/
def splitFuel (sep : List Char) : ℕ → List Char → List Char → List (List Char)
  | _, acc, [] => [acc.reverse]
  | 0, acc, s => [acc.reverse ++ s]
  | Nat.succ fuel, acc, c :: rest =>
      if listHasHead (c :: rest) sep then
        acc.reverse :: splitFuel sep fuel [] (List.drop sep.length (c :: rest))
      else
        splitFuel sep fuel (c :: acc) rest

/-- Python `s.split(sep)` for a non-empty separator. -/
def pySplit (s sep : String) : List String :=
  (splitFuel sep.toList (s.toList.length + 1) [] s.toList).map List.asString

/-- Python `s.lower()`. -/
def pyLower (s : String) : String := (s.toList.map Char.toLower).asString

/-- Python `sub in s` (substring containment). -/
def nameHas (s sub : String) : Bool := 2 ≤ (pySplit s sub).length

/-- The loop's filter for virtual/loopback NIC names. -/
def isVirtualNicName (name : String) : Bool :=
  let lname := pyLower name
  nameHas lname "loopback" || nameHas lname "pseudo" || nameHas lname " lo" ||
    nameHas lname "vmnet" || nameHas lname "virtual"

/-- `psutil.net_if_stats()` entry: link state and speed (Mbps). -/
structure NicStat where
  isup : Bool
  speed : ℚ
deriving DecidableEq, Repr

/-- `interfaces_to_process`: with no explicit monitor list, all non-virtual
NICs that have stats; otherwise the configured NICs that exist now. -/
def interfacesToProcess (monitor : Option (List String))
    (currNet : List (String × NetCounters)) (ifStats : List (String × NicStat)) :
    List String :=
  match monitor with
  | none => (currNet.map Prod.fst).filter
      (fun nic => !(isVirtualNicName nic) && (alookup ifStats nic).isSome)
  | some spec => spec.filter
      (fun nic => (alookup currNet nic).isSome && (alookup ifStats nic).isSome)

/-- One per-interface entry of the payload's `network.interfaces`. -/
structure NicReport where
  is_up : Bool
  link_speed_mbps : ℚ
  sent_Mbps : ℚ
  recv_Mbps : ℚ
  sent_percent_of_link : ℚ
  recv_percent_of_link : ℚ
deriving DecidableEq, Repr

structure NetworkTotals where
  sent_Mbps : ℚ
  recv_Mbps : ℚ
  throughput_Mbps : ℚ
deriving DecidableEq, Repr

structure NetworkData where
  total : NetworkTotals
  interfaces : List (String × NicReport)
  reported_total_link_speed_mbps : ℚ
deriving DecidableEq, Repr

/-- Running state of the per-interface loop: raw bps totals, summed active
link speed and the interface entries built so far. -/
structure NicAcc where
  total_sent_bps : ℚ
  total_recv_bps : ℚ
  total_active_link_speed : ℚ
  interfaces : List (String × NicReport)
deriving DecidableEq, Repr

/-- Body of `for nic in interfaces_to_process`: skip NICs without previous
counters; only UP interfaces get rates computed, are added to the totals and
appear in the per-interface map. -/
def processNic (timeDelta : ℚ) (lastNet currNet : List (String × NetCounters))
    (ifStats : List (String × NicStat)) (acc : NicAcc) (nic : String) : NicAcc :=
  match alookup lastNet nic with
  | none => acc
  | some last_counts =>
    match alookup currNet nic, alookup ifStats nic with
    | some current_counts, some nic_stats =>
      let is_up := nic_stats.isup
      let link_speed_mbps := nic_stats.speed
      if is_up then
        let sent_bps := sentBps timeDelta current_counts last_counts
        let recv_bps := recvBps timeDelta current_counts last_counts
        let sent_percent := if 0 < link_speed_mbps then
            pyRound ((sent_bps * 8) / (link_speed_mbps * 1000 * 1000) * 100) 2 else -1
        let recv_percent := if 0 < link_speed_mbps then
            pyRound ((recv_bps * 8) / (link_speed_mbps * 1000 * 1000) * 100) 2 else -1
        { total_sent_bps := acc.total_sent_bps + sent_bps
          total_recv_bps := acc.total_recv_bps + recv_bps
          total_active_link_speed := acc.total_active_link_speed + link_speed_mbps
          interfaces := acc.interfaces ++
            [(nic, { is_up := is_up, link_speed_mbps := link_speed_mbps
                     sent_Mbps := pyRound (sent_bps * 8 / (1024 * 1024)) 2
                     recv_Mbps := pyRound (recv_bps * 8 / (1024 * 1024)) 2
                     sent_percent_of_link := sent_percent
                     recv_percent_of_link := recv_percent })] }
      else acc
    | _, _ => acc

/-- The `network_data` computation of one cycle.  With no previous counters
(`if last_net_counters:` falsy) the default zeroed structure is kept. -/
def computeNetworkData (timeDelta : ℚ) (lastNet currNet : List (String × NetCounters))
    (ifStats : List (String × NicStat)) (monitor : Option (List String)) : NetworkData :=
  if lastNet.isEmpty then
    { total := { sent_Mbps := 0, recv_Mbps := 0, throughput_Mbps := 0 }
      interfaces := [], reported_total_link_speed_mbps := 0 }
  else
    let acc := (interfacesToProcess monitor currNet ifStats).foldl
      (processNic timeDelta lastNet currNet ifStats)
      { total_sent_bps := 0, total_recv_bps := 0, total_active_link_speed := 0, interfaces := [] }
    { total := { sent_Mbps := pyRound (acc.total_sent_bps * 8 / (1024 * 1024)) 2
                 recv_Mbps := pyRound (acc.total_recv_bps * 8 / (1024 * 1024)) 2
                 throughput_Mbps :=
                   pyRound ((acc.total_sent_bps + acc.total_recv_bps) * 8 / (1024 * 1024)) 2 }
      interfaces := acc.interfaces
      reported_total_link_speed_mbps := acc.total_active_link_speed }

/-- `disk_io_rates`: rates for every current disk that also has previous
counters; empty if either counter map is empty. -/
def computeDiskIo (timeDelta : ℚ) (lastDisk currDisk : List (String × DiskCounters)) :
    List (String × DiskIORates) :=
  if lastDisk.isEmpty || currDisk.isEmpty then []
  else currDisk.filterMap
    (fun p => (alookup lastDisk p.1).map (fun last => (p.1, diskIoRates timeDelta p.2 last)))

/-- One drained peer flow in the payload: raw bytes and derived Mbps. -/
structure FlowOut where
  bytes : ℕ
  Mbps : ℚ
deriving DecidableEq, Repr

/-- `f"{src}_to_{dst}"` -/
def flowKeyStr (k : FlowKey) : String := k.1 ++ "_to_" ++ k.2

/-- `peer_traffic_this_interval`: per drained flow,
`mbps = round((byte_count * 8) / (time_delta * 1024 * 1024), 3)`. -/
def computePeerTraffic (timeDelta : ℚ) (counts : List (FlowKey × ℕ)) :
    List (String × FlowOut) :=
  counts.map (fun p =>
    (flowKeyStr p.1,
      { bytes := p.2, Mbps := pyRound ((p.2 * 8 : ℚ) / (timeDelta * 1024 * 1024)) 3 }))

/-- The agent's per-interval payload (fields relevant to this core). -/
structure Payload where
  hostname : String
  agent_ip : String
  timestamp_utc : String
  interval_sec : ℚ
  cpu_percent : ℚ
  mem_percent : ℚ
  network : NetworkData
  disk_io : List (String × DiskIORates)
  peer_traffic : List (String × FlowOut)
deriving DecidableEq, Repr

/-- Mutable state carried by the reporting loop across ticks. -/
structure AgentLoopState where
  last_report_time : ℚ
  last_net_counters : List (String × NetCounters)
  last_disk_counters : List (String × DiskCounters)
  peer_byte_counts : List (FlowKey × ℕ)
deriving DecidableEq, Repr

/-- One iteration of the reporting loop after the wait: if the elapsed time
since the last successful report is below 0.1 s the cycle is skipped
(`continue`) with nothing emitted and nothing advanced; otherwise the peer
accumulator is drained, rates are computed, the payload is assembled and the
previous counters/last-report-time are advanced (counters only when the
current read was non-empty). -/
def reportTick (st : AgentLoopState) (now : ℚ) (npcap : Bool)
    (monitor : Option (List String))
    (currNet : List (String × NetCounters)) (ifStats : List (String × NicStat))
    (currDisk : List (String × DiskCounters))
    (hostname agent_ip timestamp_utc : String) (cpu mem : ℚ) :
    AgentLoopState × Option Payload :=
  let time_delta := now - st.last_report_time
  if time_delta < 1/10 then (st, none)
  else
    let peer_traffic := if npcap then computePeerTraffic time_delta st.peer_byte_counts else []
    let network := computeNetworkData time_delta st.last_net_counters currNet ifStats monitor
    let disk_io := computeDiskIo time_delta st.last_disk_counters currDisk
    let payload : Payload :=
      { hostname := hostname, agent_ip := agent_ip, timestamp_utc := timestamp_utc
        interval_sec := pyRound time_delta 2
        cpu_percent := cpu, mem_percent := mem
        network := network, disk_io := disk_io, peer_traffic := peer_traffic }
    ({ last_report_time := now
       last_net_counters := if currNet.isEmpty then st.last_net_counters else currNet
       last_disk_counters := if currDisk.isEmpty then st.last_disk_counters else currDisk
       peer_byte_counts := if npcap then [] else st.peer_byte_counts },
     some payload)

/-- C6: a tick whose elapsed time is below the 0.1 s noise floor emits no
report and leaves the loop state — previous counters, last-report time and
the undrained flow accumulator — exactly unchanged. -/
theorem C6_noise_floor_no_op (st : AgentLoopState) (now : ℚ) (npcap : Bool)
    (monitor : Option (List String))
    (currNet : List (String × NetCounters)) (ifStats : List (String × NicStat))
    (currDisk : List (String × DiskCounters))
    (hostname agent_ip timestamp_utc : String) (cpu mem : ℚ)
    (h : now - st.last_report_time < 1/10) :
    reportTick st now npcap monitor currNet ifStats currDisk
      hostname agent_ip timestamp_utc cpu mem = (st, none) := by
  unfold reportTick
  rw [if_pos (by simpa using h)]

/-- Witness for C6 at a concrete tick 0.05 s after the previous report. -/
theorem C6_noise_floor_no_op_witness :
    reportTick ⟨10, [("eth0", ⟨1, 2⟩)], [("sda", ⟨1, 2, 3, 4⟩)], [(("a", "b"), 5)]⟩
      (10 + 1/20) true none [("eth0", ⟨7, 8⟩)] [("eth0", ⟨true, 100⟩)]
      [("sda", ⟨5, 6, 7, 8⟩)] "h1" "10.0.0.1" "t" 50 60 =
      (⟨10, [("eth0", ⟨1, 2⟩)], [("sda", ⟨1, 2, 3, 4⟩)], [(("a", "b"), 5)]⟩, none) :=
  C6_noise_floor_no_op _ _ _ _ _ _ _ _ _ _ _ _ (by norm_num)

/-- C7 counterexample: a drained flow of 131072 bytes over a 1 s interval is
reported at 1 Mbps (the code divides by 1024·1024), not at the claimed
B·8/(T·1e6) = 1.048576 Mbps. -/
theorem C7_counterexample :
    (reportTick ⟨0, [], [], [(("10.0.0.1", "10.0.0.2"), 131072)]⟩ 1 true none [] [] []
      "h1" "10.0.0.1" "t" 0 0).2 =
      some { hostname := "h1", agent_ip := "10.0.0.1", timestamp_utc := "t"
             interval_sec := 1, cpu_percent := 0, mem_percent := 0
             network := ⟨⟨0, 0, 0⟩, [], 0⟩, disk_io := []
             peer_traffic := [("10.0.0.1_to_10.0.0.2", ⟨131072, 1⟩)] } ∧
    ((131072 : ℚ) * 8) / (1 * 1000000) ≠ 1 := by
  refine ⟨?_, by norm_num⟩
  unfold reportTick
  rw [if_neg (by norm_num)]
  simp only [Option.some.injEq, Payload.mk.injEq]
  refine ⟨trivial, trivial, trivial, by norm_num [pyRound, roundHalfEven], trivial, trivial,
    by simp [computeNetworkData], by simp [computeDiskIo], ?_⟩
  simp only [if_pos rfl, computePeerTraffic, flowKeyStr, List.map_cons, List.map_nil]
  norm_num [pyRound, roundHalfEven]
  decide

/-- C7 (amended): each drained flow of B bytes over a T-second interval is
reported at `round(B·8 / (T·1024·1024), 3)` Mbps (mebibit-based divisor, three
decimals), and the drain clears the accumulator for the next interval. -/
theorem C7_flow_rate_amended (st : AgentLoopState) (now : ℚ)
    (monitor : Option (List String))
    (currNet : List (String × NetCounters)) (ifStats : List (String × NicStat))
    (currDisk : List (String × DiskCounters))
    (hostname agent_ip timestamp_utc : String) (cpu mem : ℚ)
    (h : ¬(now - st.last_report_time < 1/10)) :
    ∃ p : Payload,
      (reportTick st now true monitor currNet ifStats currDisk
        hostname agent_ip timestamp_utc cpu mem).2 = some p ∧
      p.peer_traffic = computePeerTraffic (now - st.last_report_time) st.peer_byte_counts ∧
      (∀ kb ∈ st.peer_byte_counts,
        (flowKeyStr kb.1,
          FlowOut.mk kb.2
            (pyRound ((kb.2 * 8 : ℚ) / ((now - st.last_report_time) * 1024 * 1024)) 3))
          ∈ p.peer_traffic) ∧
      (reportTick st now true monitor currNet ifStats currDisk
        hostname agent_ip timestamp_utc cpu mem).1.peer_byte_counts = [] := by
  unfold reportTick
  rw [if_neg (by simpa using h)]
  refine ⟨_, rfl, ?_, ?_, rfl⟩
  · simp
  · intro kb hkb
    simpa [computePeerTraffic] using List.mem_map_of_mem
      (fun p : FlowKey × ℕ =>
        (flowKeyStr p.1,
          ({ bytes := p.2,
             Mbps := pyRound ((p.2 * 8 : ℚ) / ((now - st.last_report_time) * 1024 * 1024)) 3 }
            : FlowOut))) hkb

/-- Witness for the amended C7 at a concrete drained flow. -/
theorem C7_flow_rate_amended_witness :
    ¬((1 : ℚ) - (⟨0, [], [], [(("a", "b"), 131072)]⟩ : AgentLoopState).last_report_time < 1/10) ∧
    ∃ p : Payload,
      (reportTick ⟨0, [], [], [(("a", "b"), 131072)]⟩ 1 true none [] [] [] "h" "i" "t" 0 0).2 =
        some p ∧
      p.peer_traffic = computePeerTraffic
        (1 - (⟨0, [], [], [(("a", "b"), 131072)]⟩ : AgentLoopState).last_report_time)
        (⟨0, [], [], [(("a", "b"), 131072)]⟩ : AgentLoopState).peer_byte_counts ∧
      (∀ kb ∈ (⟨0, [], [], [(("a", "b"), 131072)]⟩ : AgentLoopState).peer_byte_counts,
        (flowKeyStr kb.1,
          FlowOut.mk kb.2
            (pyRound ((kb.2 * 8 : ℚ) /
              ((1 - (⟨0, [], [], [(("a", "b"), 131072)]⟩ : AgentLoopState).last_report_time) *
                1024 * 1024)) 3))
          ∈ p.peer_traffic) ∧
      (reportTick ⟨0, [], [], [(("a", "b"), 131072)]⟩ 1 true none [] [] []
        "h" "i" "t" 0 0).1.peer_byte_counts = [] :=
  ⟨by norm_num,
   C7_flow_rate_amended ⟨0, [], [], [(("a", "b"), 131072)]⟩ 1 none [] [] [] "h" "i" "t" 0 0
     (by norm_num)⟩

/-- C8 counterexample: an interface that is down (here `eth0`, present in the
current counters, the previous counters and the NIC stats) is omitted from the
per-NIC section entirely, instead of being reported with `is_up = false`. -/
theorem C8_counterexample :
    (computeNetworkData 1 [("eth0", ⟨0, 0⟩)] [("eth0", ⟨100, 100⟩)]
      [("eth0", ⟨false, 1000⟩)] none).interfaces = [] := by
  decide

theorem processNic_skip_down (timeDelta : ℚ) (lastNet currNet : List (String × NetCounters))
    (ifStats : List (String × NicStat)) (acc : NicAcc) (nic : String) (st : NicStat)
    (hst : alookup ifStats nic = some st) (hdown : st.isup = false) :
    processNic timeDelta lastNet currNet ifStats acc nic = acc := by
  unfold processNic
  cases hl : alookup lastNet nic with
  | none => rfl
  | some last =>
    cases hc : alookup currNet nic with
    | none => simp [hst]
    | some c => simp [hst, hdown]

theorem processNic_entries_up (timeDelta : ℚ) (lastNet currNet : List (String × NetCounters))
    (ifStats : List (String × NicStat)) (acc : NicAcc) (nic : String)
    (hacc : ∀ e ∈ acc.interfaces, (e : String × NicReport).2.is_up = true) :
    ∀ e ∈ (processNic timeDelta lastNet currNet ifStats acc nic).interfaces,
      (e : String × NicReport).2.is_up = true := by
  intro e he
  unfold processNic at he
  cases hl : alookup lastNet nic with
  | none => rw [hl] at he; exact hacc e he
  | some last =>
    rw [hl] at he
    cases hc : alookup currNet nic with
    | none => rw [hc] at he; cases hs : alookup ifStats nic <;> rw [hs] at he <;> exact hacc e he
    | some c =>
      rw [hc] at he
      cases hs : alookup ifStats nic with
      | none => rw [hs] at he; exact hacc e he
      | some stats =>
        rw [hs] at he
        dsimp only at he
        by_cases hup : stats.isup = true
        · rw [if_pos hup] at he
          rcases List.mem_append.1 he with h1 | h2
          · exact hacc e h1
          · simp only [List.mem_singleton] at h2
            subst h2
            exact hup
        · rw [if_neg hup] at he
          exact hacc e he

theorem foldl_processNic_entries_up (timeDelta : ℚ)
    (lastNet currNet : List (String × NetCounters)) (ifStats : List (String × NicStat))
    (nics : List String) (acc : NicAcc)
    (hacc : ∀ e ∈ acc.interfaces, (e : String × NicReport).2.is_up = true) :
    ∀ e ∈ (nics.foldl (processNic timeDelta lastNet currNet ifStats) acc).interfaces,
      (e : String × NicReport).2.is_up = true := by
  induction nics generalizing acc with
  | nil => exact hacc
  | cons nic rest ih =>
    exact ih _ (processNic_entries_up timeDelta lastNet currNet ifStats acc nic hacc)

/-- C8 (amended): interfaces that are down contribute nothing to the aggregate
totals — processing a down NIC leaves the running totals and the per-NIC map
unchanged — and the per-NIC section of the emitted report contains only
interfaces that are up; down interfaces are omitted entirely. -/
theorem C8_up_only_amended (timeDelta : ℚ) (lastNet currNet : List (String × NetCounters))
    (ifStats : List (String × NicStat)) (monitor : Option (List String)) :
    (∀ (acc : NicAcc) (nic : String) (st : NicStat),
        alookup ifStats nic = some st → st.isup = false →
        processNic timeDelta lastNet currNet ifStats acc nic = acc) ∧
    (∀ e ∈ (computeNetworkData timeDelta lastNet currNet ifStats monitor).interfaces,
        (e : String × NicReport).2.is_up = true) := by
  constructor
  · exact fun acc nic st hst hdown =>
      processNic_skip_down timeDelta lastNet currNet ifStats acc nic st hst hdown
  · intro e he
    unfold computeNetworkData at he
    by_cases hemp : lastNet.isEmpty
    · rw [if_pos hemp] at he; simp at he
    · rw [if_neg hemp] at he
      exact foldl_processNic_entries_up timeDelta lastNet currNet ifStats
        (interfacesToProcess monitor currNet ifStats) _ (by simp) e he

/-- Witness for the amended C8: a concrete down NIC is a no-op for the
accumulator, and a concrete report contains only up interfaces. -/
theorem C8_up_only_amended_witness :
    processNic 1 [("eth0", ⟨0, 0⟩)] [("eth0", ⟨5, 5⟩)] [("eth0", ⟨false, 100⟩)]
      ⟨0, 0, 0, []⟩ "eth0" = ⟨0, 0, 0, []⟩ ∧
    (∀ e ∈ (computeNetworkData 1 [("eth0", ⟨0, 0⟩)] [("eth0", ⟨5, 5⟩)]
        [("eth0", ⟨false, 100⟩)] none).interfaces,
      (e : String × NicReport).2.is_up = true) :=
  ⟨(C8_up_only_amended 1 [("eth0", ⟨0, 0⟩)] [("eth0", ⟨5, 5⟩)]
      [("eth0", ⟨false, 100⟩)] none).1 ⟨0, 0, 0, []⟩ "eth0" ⟨false, 100⟩ (by decide) rfl,
   (C8_up_only_amended 1 [("eth0", ⟨0, 0⟩)] [("eth0", ⟨5, 5⟩)]
      [("eth0", ⟨false, 100⟩)] none).2⟩

/-! ## Alert Engine (simple_ui_collector.py `check_and_update_alerts`)

The `alerts` table has `alert_key TEXT UNIQUE NOT NULL`; it is modelled as a
list of rows (unique keys stated where needed).  SQLite's three-valued `!=`
treats a NULL operand as not-different, which matters in the UPSERT's WHERE
clause. -/

inductive AlertStatus
  | active
  | resolved
deriving DecidableEq, Repr

structure AlertRow where
  alert_key : String
  hostname : String
  alert_type : String
  specific_target : Option String
  status : AlertStatus
  message : String
  current_value : Option ℚ
  threshold_value : Option ℚ
  first_triggered_unix : ℚ
  last_active_unix : Option ℚ
  resolved_unix : Option ℚ
deriving DecidableEq, Repr

/-- SQL `a != b` on nullable REALs: NULL on either side is not a difference. -/
def sqlNeq (a b : Option ℚ) : Bool :=
  match a, b with
  | some x, some y => decide (x ≠ y)
  | _, _ => false

/-- `generate_alert_key`'s target normalisation: spaces to underscores, then
drop `:`, `\` and `/`. -/
def safeTarget (t : String) : String :=
  ((t.toList.map (fun c => if c = ' ' then '_' else c)).filter
    (fun c => c ≠ ':' && c ≠ '\\' && c ≠ '/')).asString

/-- `generate_alert_key(hostname, alert_type, specific_target)`. -/
def generateAlertKey (hostname alert_type : String) (specific_target : Option String) :
    String :=
  match specific_target with
  | none => hostname ++ "_" ++ alert_type
  | some t =>
      if t = "" then hostname ++ "_" ++ alert_type
      else hostname ++ "_" ++ alert_type ++ "_" ++ safeTarget t

/-- The UPSERT's `DO UPDATE` applied to the conflicting row: the SET runs only
when the WHERE clause (`status != 'active' OR current_value != excluded OR
message != excluded`) holds. -/
def upsertActiveRow (now : ℚ) (message : String) (value threshold : Option ℚ)
    (r : AlertRow) : AlertRow :=
  if decide (r.status ≠ AlertStatus.active) || sqlNeq r.current_value value ||
      decide (r.message ≠ message) then
    { r with
      status := AlertStatus.active
      message := message
      current_value := value
      threshold_value := threshold
      last_active_unix := some now
      resolved_unix := none }
  else r

/-- `update_or_insert_alert`: on a met condition, INSERT a fresh active row or
conditionally update the conflicting one; on an unmet condition, flip an
active row with this key to resolved. -/
def update_or_insert_alert (hostname : String) (now : ℚ) (tbl : List AlertRow)
    (is_triggered : Bool) (alert_key alert_type : String) (message : String)
    (value threshold : Option ℚ) (specific_target : Option String) : List AlertRow :=
  if is_triggered then
    if (tbl.find? (fun r => r.alert_key = alert_key)).isSome then
      tbl.map (fun r =>
        if r.alert_key = alert_key then upsertActiveRow now message value threshold r else r)
    else
      tbl ++ [{ alert_key := alert_key
                hostname := hostname
                alert_type := alert_type
                specific_target := specific_target
                status := AlertStatus.active
                message := message
                current_value := value
                threshold_value := threshold
                first_triggered_unix := now
                last_active_unix := some now
                resolved_unix := none }]
  else
    tbl.map (fun r =>
      if r.alert_key = alert_key ∧ r.status = AlertStatus.active then
        { r with status := AlertStatus.resolved, resolved_unix := some now }
      else r)

/-- Round half to even of the fraction `num / den`, in integer arithmetic. -/
def rheScaled (num : ℤ) (den : ℕ) : ℤ :=
  let f := Int.ediv num den
  let r := Int.emod num den
  if 2 * r < (den : ℤ) then f
  else if (den : ℤ) < 2 * r then f + 1
  else if Int.emod f 2 = 0 then f else f + 1

/-- Python `f"{q:.1f}"`. -/
def fmt1 (q : ℚ) : String :=
  let n := rheScaled (10 * q.num) q.den
  if n < 0 then "-" ++ toString (Int.ediv (-n) 10) ++ "." ++ toString (Int.emod (-n) 10)
  else toString (Int.ediv n 10) ++ "." ++ toString (Int.emod n 10)

/-- `cpu_message`. -/
def cpuMessage (v : ℚ) (triggered : Bool) : String :=
  if triggered then "CPU usage " ++ fmt1 v ++ "% >= 90.0%" else "CPU usage OK"

/-- The CPU branch of `check_and_update_alerts`
(`ALERT_CPU_THRESHOLD = 90.0`). -/
def checkCpu (tbl : List AlertRow) (hostname : String) (cpu_percent : ℚ) (now : ℚ) :
    List AlertRow :=
  let cpu_key := generateAlertKey hostname "cpu_high" none
  let cpu_triggered : Bool := decide (90 ≤ cpu_percent)
  update_or_insert_alert hostname now tbl cpu_triggered cpu_key "cpu_high"
    (cpuMessage cpu_percent cpu_triggered) (some cpu_percent) (some 90) none

/-- One probe result as stored in the processed snapshot. -/
structure PingData where
  status : String
  latency_ms : Option ℚ
  timestamp : Option ℚ
deriving DecidableEq, Repr

/-- The ping-failure persistence decision
(`ALERT_PING_FAIL_THRESHOLD_MINUTES = 5`): both the already-active branch and
the first-failure branch additionally require the probe's own timestamp to be
truthy and newer than `now - 300`. -/
def pingFailPersist (tbl : List AlertRow) (ping_fail_key : String)
    (is_failing : Bool) (ping_timestamp : Option ℚ) (now : ℚ) : Bool :=
  if is_failing then
    let fail_cutoff_time := now - 5 * 60
    let result := (tbl.find? (fun r =>
      r.alert_key = ping_fail_key ∧ r.status = AlertStatus.active)).isSome
    let tsOk : Bool := match ping_timestamp with
      | some t => decide (t ≠ 0) && decide (fail_cutoff_time < t)
      | none => false
    if result && tsOk then true
    else if tsOk then true
    else false
  else false

/-- The ping-failure branch of `check_and_update_alerts` for one target. -/
def checkPingFail (tbl : List AlertRow) (hostname target_ip : String)
    (pd : PingData) (now : ℚ) : List AlertRow :=
  let ping_fail_key := generateAlertKey hostname "ping_fail" (some target_ip)
  let is_failing : Bool := decide (pd.status = "timeout") || decide (pd.status = "error")
  let fail_message := if is_failing then
      "Ping to " ++ target_ip ++ " failed (Status: " ++ pd.status ++ ")"
    else "Ping to " ++ target_ip ++ " OK"
  let fail_value : ℚ := if is_failing then 1 else 0
  let is_persistently_failing :=
    pingFailPersist tbl ping_fail_key is_failing pd.timestamp now
  update_or_insert_alert hostname now tbl is_persistently_failing ping_fail_key
    "ping_fail" fail_message (some fail_value) (some 1) (some target_ip)

/-! ### Generic lemmas about `update_or_insert_alert` -/

/-- Uniqueness of `alert_key`, the table's UNIQUE constraint. -/
def alertKeysNodup (tbl : List AlertRow) : Prop :=
  (tbl.map (fun r => r.alert_key)).Nodup

theorem listMapSelf {α : Type} (l : List α) (f : α → α) (h : ∀ x ∈ l, f x = x) :
    l.map f = l := by
  induction l with
  | nil => rfl
  | cons a t ih =>
      simp only [List.map_cons, h a (by simp), ih (fun x hx => h x (by simp [hx]))]

theorem sqlNeq_self (a : Option ℚ) : sqlNeq a a = false := by
  cases a <;> simp [sqlNeq]

theorem findIsSome_of_mem {α : Type} (l : List α) (p : α → Bool) (x : α)
    (hx : x ∈ l) (hp : p x = true) : (l.find? p).isSome = true := by
  induction l with
  | nil => cases hx
  | cons a t ih =>
      by_cases ha : p a = true
      · simp [List.find?_cons, ha]
      · rcases List.mem_cons.1 hx with rfl | hxt
        · exact absurd hp ha
        · simpa [List.find?_cons, ha] using ih hxt

theorem forall_not_of_findIsSome_false {α : Type} (l : List α) (p : α → Bool)
    (h : (l.find? p).isSome = false) : ∀ x ∈ l, p x = false := by
  intro x hx
  by_contra hpx
  rw [findIsSome_of_mem l p x hx (by revert hpx; cases p x <;> simp)] at h
  cases h

/-- Inserting a fresh active row when no row with the key exists. -/
theorem update_alert_insert (hostname : String) (now : ℚ) (tbl : List AlertRow)
    (alert_key alert_type message : String) (value threshold : Option ℚ)
    (specific_target : Option String)
    (hfind : (tbl.find? (fun r => r.alert_key = alert_key)).isSome = false) :
    update_or_insert_alert hostname now tbl true alert_key alert_type message
        value threshold specific_target =
      tbl ++ [{ alert_key := alert_key, hostname := hostname, alert_type := alert_type
                specific_target := specific_target, status := AlertStatus.active
                message := message, current_value := value, threshold_value := threshold
                first_triggered_unix := now, last_active_unix := some now
                resolved_unix := none }] := by
  unfold update_or_insert_alert
  rw [if_pos rfl, hfind]
  rfl

theorem upsertActiveRow_key (now : ℚ) (message : String) (value threshold : Option ℚ)
    (r : AlertRow) : (upsertActiveRow now message value threshold r).alert_key =
      r.alert_key := by
  unfold upsertActiveRow
  split <;> rfl

theorem mapKeysOfKeep (f : AlertRow → AlertRow)
    (hf : ∀ r, (f r).alert_key = r.alert_key) (tbl : List AlertRow) :
    (tbl.map f).map (fun r => r.alert_key) = tbl.map (fun r => r.alert_key) := by
  induction tbl with
  | nil => rfl
  | cons a t ih => simp only [List.map_cons, hf, ih]

/-- The untriggered branch never changes the key set (no insertion). -/
theorem update_alert_untriggered_keys (hostname : String) (now : ℚ) (tbl : List AlertRow)
    (alert_key alert_type message : String) (value threshold : Option ℚ)
    (specific_target : Option String) :
    (update_or_insert_alert hostname now tbl false alert_key alert_type message
        value threshold specific_target).map (fun r => r.alert_key) =
      tbl.map (fun r => r.alert_key) := by
  unfold update_or_insert_alert
  rw [if_neg (by simp)]
  apply mapKeysOfKeep
  intro r
  by_cases hc : r.alert_key = alert_key ∧ r.status = AlertStatus.active
  · simp [hc]
  · simp [if_neg hc]

/-- The untriggered branch resolves a matching active row. -/
theorem update_alert_resolve_mem (hostname : String) (now : ℚ) (tbl : List AlertRow)
    (alert_key alert_type message : String) (value threshold : Option ℚ)
    (specific_target : Option String) (r : AlertRow) (hr : r ∈ tbl)
    (hk : r.alert_key = alert_key) (hs : r.status = AlertStatus.active) :
    { r with status := AlertStatus.resolved, resolved_unix := some now } ∈
      update_or_insert_alert hostname now tbl false alert_key alert_type message
        value threshold specific_target := by
  unfold update_or_insert_alert
  rw [if_neg (by simp)]
  exact List.mem_map.2 ⟨r, hr, by simp [hk, hs]⟩

/-- The untriggered branch leaves non-matching rows untouched. -/
theorem update_alert_resolve_frame (hostname : String) (now : ℚ) (tbl : List AlertRow)
    (alert_key alert_type message : String) (value threshold : Option ℚ)
    (specific_target : Option String) (r : AlertRow) (hr : r ∈ tbl)
    (hk : ¬(r.alert_key = alert_key ∧ r.status = AlertStatus.active)) :
    r ∈ update_or_insert_alert hostname now tbl false alert_key alert_type message
        value threshold specific_target := by
  unfold update_or_insert_alert
  rw [if_neg (by simp)]
  exact List.mem_map.2 ⟨r, hr, by simp [if_neg hk]⟩

/-- After a triggered update, every row carrying the key is active. -/
theorem update_alert_triggered_active (hostname : String) (now : ℚ) (tbl : List AlertRow)
    (alert_key alert_type message : String) (value threshold : Option ℚ)
    (specific_target : Option String) (r' : AlertRow)
    (hr' : r' ∈ update_or_insert_alert hostname now tbl true alert_key alert_type message
        value threshold specific_target)
    (hk : r'.alert_key = alert_key) : r'.status = AlertStatus.active := by
  unfold update_or_insert_alert at hr'
  rw [if_pos rfl] at hr'
  by_cases hfind : (tbl.find? (fun r => r.alert_key = alert_key)).isSome = true
  · rw [if_pos hfind] at hr'
    rcases List.mem_map.1 hr' with ⟨r, hr, hfr⟩
    by_cases hrk : r.alert_key = alert_key
    · rw [if_pos hrk] at hfr
      subst hfr
      unfold upsertActiveRow
      by_cases hcond : (decide (r.status ≠ AlertStatus.active) ||
          sqlNeq r.current_value value || decide (r.message ≠ message)) = true
      · rw [if_pos hcond]
      · rw [if_neg hcond]
        simp only [Bool.or_eq_true, decide_eq_true_eq, not_or] at hcond
        have := hcond.1.1
        revert this
        cases r.status <;> simp
    · rw [if_neg hrk] at hfr
      subst hfr
      exact absurd hk hrk
  · rw [if_neg hfind] at hr'
    rcases List.mem_append.1 hr' with hin | hnew
    · have hall := forall_not_of_findIsSome_false tbl
        (fun r => r.alert_key = alert_key) (by simpa using hfind) r' hin
      simp only [decide_eq_false_iff_not] at hall
      exact absurd hk hall
    · simp only [List.mem_singleton] at hnew
      subst hnew
      rfl

/-- A triggered update with value and message identical to an already-active
row's leaves the table exactly unchanged (the UPSERT's WHERE clause blocks
the SET). -/
theorem update_alert_noop (hostname : String) (now : ℚ) (tbl : List AlertRow)
    (alert_key alert_type message : String) (value threshold : Option ℚ)
    (specific_target : Option String)
    (hfind : (tbl.find? (fun r => r.alert_key = alert_key)).isSome = true)
    (hall : ∀ r ∈ tbl, r.alert_key = alert_key →
      r.status = AlertStatus.active ∧ r.current_value = value ∧ r.message = message) :
    update_or_insert_alert hostname now tbl true alert_key alert_type message
        value threshold specific_target = tbl := by
  unfold update_or_insert_alert
  rw [if_pos rfl, if_pos hfind]
  apply listMapSelf
  intro r hr
  by_cases hrk : r.alert_key = alert_key
  · rw [if_pos hrk]
    obtain ⟨hs, hv, hm⟩ := hall r hr hrk
    unfold upsertActiveRow
    rw [if_neg]
    simp [hs, hv, hm, sqlNeq_self]
  · rw [if_neg hrk]

/-- A triggered update refreshes a matching active row whose stored value
differs from the new sample's. -/
theorem update_alert_refresh_mem (hostname : String) (now : ℚ) (tbl : List AlertRow)
    (alert_key alert_type message : String) (value threshold : Option ℚ)
    (specific_target : Option String) (r : AlertRow) (hr : r ∈ tbl)
    (hk : r.alert_key = alert_key) (hneq : sqlNeq r.current_value value = true) :
    { r with status := AlertStatus.active, message := message, current_value := value
             threshold_value := threshold, last_active_unix := some now
             resolved_unix := none } ∈
      update_or_insert_alert hostname now tbl true alert_key alert_type message
        value threshold specific_target := by
  unfold update_or_insert_alert
  rw [if_pos rfl, if_pos (findIsSome_of_mem tbl _ r hr (by simp [hk]))]
  refine List.mem_map.2 ⟨r, hr, ?_⟩
  simp only [if_pos hk]
  unfold upsertActiveRow
  rw [if_pos (by simp [hneq])]

/-- `update_or_insert_alert` never duplicates an alert key. -/
theorem update_alert_preserves_nodup (hostname : String) (now : ℚ) (tbl : List AlertRow)
    (is_triggered : Bool) (alert_key alert_type message : String)
    (value threshold : Option ℚ) (specific_target : Option String)
    (h : alertKeysNodup tbl) :
    alertKeysNodup (update_or_insert_alert hostname now tbl is_triggered alert_key
      alert_type message value threshold specific_target) := by
  unfold alertKeysNodup at h ⊢
  unfold update_or_insert_alert
  cases is_triggered with
  | false =>
      rw [if_neg (by simp)]
      rw [mapKeysOfKeep _ (fun r => by
        by_cases hc : r.alert_key = alert_key ∧ r.status = AlertStatus.active
        · simp [hc]
        · simp [if_neg hc])]
      exact h
  | true =>
      rw [if_pos rfl]
      by_cases hfind : (tbl.find? (fun r => r.alert_key = alert_key)).isSome = true
      · rw [if_pos hfind]
        rw [mapKeysOfKeep _ (fun r => by
          by_cases hc : r.alert_key = alert_key
          · simp only [if_pos hc]
            exact upsertActiveRow_key now message value threshold r
          · simp [if_neg hc])]
        exact h
      · rw [if_neg hfind]
        rw [List.map_append]
        rw [List.nodup_append]
        refine ⟨h, by simp, ?_⟩
        intro k hk1 hk2
        simp only [List.map_cons, List.map_nil, List.mem_singleton] at hk2
        rcases List.mem_map.1 hk1 with ⟨r, hr, hrk⟩
        have hall := forall_not_of_findIsSome_false tbl (fun r => r.alert_key = alert_key)
          (by simpa using hfind) r hr
        simp only [decide_eq_false_iff_not] at hall
        exact hall (hrk.trans hk2)

/-- C3 counterexample: host h1 breaches the CPU threshold at t=1 (row created
with last-active-time 1) and again with the identical value at t=2; the UPSERT's
WHERE clause sees no change, so last-active-time stays 1 instead of being
refreshed to 2. -/
theorem C3_counterexample :
    checkCpu (checkCpu [] "h1" 95 1) "h1" 95 2 = checkCpu [] "h1" 95 1 ∧
    (checkCpu [] "h1" 95 1).map (fun r => r.last_active_unix) = [some 1] ∧
    ¬(some (1 : ℚ) = some (2 : ℚ)) := by
  refine ⟨by decide, by decide, by simp⟩

/-- C3 (amended): the first breaching sample inserts an active row with
first-triggered = now; the first non-breaching sample resolves it with
resolved-time = now; a repeated breaching sample with value and message equal
to the stored ones leaves the table exactly unchanged (last-active-time is
refreshed only when the stored value differs); and the table never holds two
rows for the same alert key. -/
theorem C3_threshold_alert_lifecycle_amended :
    (∀ (tbl : List AlertRow) (h : String) (v now : ℚ),
      90 ≤ v →
      (tbl.find? (fun r => r.alert_key = generateAlertKey h "cpu_high" none)).isSome
        = false →
      checkCpu tbl h v now = tbl ++
        [{ alert_key := generateAlertKey h "cpu_high" none
           hostname := h
           alert_type := "cpu_high"
           specific_target := none
           status := AlertStatus.active
           message := cpuMessage v true
           current_value := some v
           threshold_value := some 90
           first_triggered_unix := now
           last_active_unix := some now
           resolved_unix := none }]) ∧
    (∀ (tbl : List AlertRow) (h : String) (v now : ℚ) (r : AlertRow),
      v < 90 → r ∈ tbl → r.alert_key = generateAlertKey h "cpu_high" none →
      r.status = AlertStatus.active →
      { r with status := AlertStatus.resolved, resolved_unix := some now } ∈
        checkCpu tbl h v now) ∧
    (∀ (tbl : List AlertRow) (h : String) (v now : ℚ),
      90 ≤ v →
      (tbl.find? (fun r => r.alert_key = generateAlertKey h "cpu_high" none)).isSome
        = true →
      (∀ r ∈ tbl, r.alert_key = generateAlertKey h "cpu_high" none →
        r.status = AlertStatus.active ∧ r.current_value = some v ∧
          r.message = cpuMessage v true) →
      checkCpu tbl h v now = tbl) ∧
    (∀ (tbl : List AlertRow) (h : String) (v w now : ℚ) (r : AlertRow),
      90 ≤ v → r ∈ tbl → r.alert_key = generateAlertKey h "cpu_high" none →
      r.current_value = some w → w ≠ v →
      { r with status := AlertStatus.active, message := cpuMessage v true
               current_value := some v, threshold_value := some 90
               last_active_unix := some now, resolved_unix := none } ∈
        checkCpu tbl h v now) ∧
    (∀ (tbl : List AlertRow) (h : String) (v now : ℚ),
      alertKeysNodup tbl → alertKeysNodup (checkCpu tbl h v now)) := by
  refine ⟨?_, ?_, ?_, ?_, ?_⟩
  · intro tbl h v now h90 hfind
    unfold checkCpu
    rw [decide_eq_true h90]
    exact update_alert_insert h now tbl _ "cpu_high" (cpuMessage v true)
      (some v) (some 90) none hfind
  · intro tbl h v now r hv hr hk hs
    unfold checkCpu
    rw [decide_eq_false (not_le.2 hv)]
    exact update_alert_resolve_mem h now tbl _ "cpu_high" (cpuMessage v false)
      (some v) (some 90) none r hr hk hs
  · intro tbl h v now h90 hfind hall
    unfold checkCpu
    rw [decide_eq_true h90]
    exact update_alert_noop h now tbl _ "cpu_high" (cpuMessage v true)
      (some v) (some 90) none hfind hall
  · intro tbl h v w now r h90 hr hk hw hne
    unfold checkCpu
    rw [decide_eq_true h90]
    exact update_alert_refresh_mem h now tbl _ "cpu_high" (cpuMessage v true)
      (some v) (some 90) none r hr hk (by simp [sqlNeq, hw, hne])
  · intro tbl h v now hnd
    unfold checkCpu
    exact update_alert_preserves_nodup h now tbl _ _ "cpu_high" _ (some v) (some 90)
      none hnd

/-- Witness for the amended C3 on concrete samples. -/
theorem C3_threshold_alert_lifecycle_amended_witness :
    checkCpu [] "h1" 95 1 = [] ++
      [{ alert_key := generateAlertKey "h1" "cpu_high" none
         hostname := "h1"
         alert_type := "cpu_high"
         specific_target := none
         status := AlertStatus.active
         message := cpuMessage 95 true
         current_value := some 95
         threshold_value := some 90
         first_triggered_unix := 1
         last_active_unix := some 1
         resolved_unix := none }] ∧
    alertKeysNodup (checkCpu [] "h1" 95 1) :=
  ⟨C3_threshold_alert_lifecycle_amended.1 [] "h1" 95 1 (by norm_num) (by decide),
   C3_threshold_alert_lifecycle_amended.2.2.2.2 [] "h1" 95 1 (by simp [alertKeysNodup])⟩

/-- The ping-failure persistence decision reduces to "latest probe failing and
its timestamp truthy and within the window"; the table (in particular whether
an alert is already active) plays no role. -/
theorem pingFailPersist_eq (tbl : List AlertRow) (key : String) (failing : Bool)
    (ts : Option ℚ) (now : ℚ) :
    pingFailPersist tbl key failing ts now =
      (failing && (match ts with
        | some t => decide (t ≠ 0) && decide (now - 5 * 60 < t)
        | none => false)) := by
  unfold pingFailPersist
  cases failing with
  | false => rfl
  | true =>
      dsimp only
      generalize (tbl.find? (fun r =>
        r.alert_key = key ∧ r.status = AlertStatus.active)).isSome = a
      generalize (match ts with
        | some t => decide (t ≠ 0) && decide (now - 5 * 60 < t)
        | none => false) = b
      cases a <;> cases b <;> rfl

/-- C2 counterexample: the `ping_fail` alert for (h1, 10.0.0.9) is active and
the latest probe to that target is itself a failure, but its timestamp (100)
is older than the 5-minute window before now (1000); the alert is resolved
instead of being kept active. -/
theorem C2_counterexample :
    checkPingFail
      [{ alert_key := "h1_ping_fail_10.0.0.9"
         hostname := "h1"
         alert_type := "ping_fail"
         specific_target := some "10.0.0.9"
         status := AlertStatus.active
         message := "Ping to 10.0.0.9 failed (Status: timeout)"
         current_value := some 1
         threshold_value := some 1
         first_triggered_unix := 500
         last_active_unix := some 500
         resolved_unix := none }]
      "h1" "10.0.0.9" ⟨"timeout", none, some 100⟩ 1000 =
      [{ alert_key := "h1_ping_fail_10.0.0.9"
         hostname := "h1"
         alert_type := "ping_fail"
         specific_target := some "10.0.0.9"
         status := AlertStatus.resolved
         message := "Ping to 10.0.0.9 failed (Status: timeout)"
         current_value := some 1
         threshold_value := some 1
         first_triggered_unix := 500
         last_active_unix := some 500
         resolved_unix := some 1000 }] := by
  have hkey : generateAlertKey "h1" "ping_fail" (some "10.0.0.9") =
      "h1_ping_fail_10.0.0.9" := by decide
  have hpersist : pingFailPersist
      [{ alert_key := "h1_ping_fail_10.0.0.9"
         hostname := "h1"
         alert_type := "ping_fail"
         specific_target := some "10.0.0.9"
         status := AlertStatus.active
         message := "Ping to 10.0.0.9 failed (Status: timeout)"
         current_value := some 1
         threshold_value := some 1
         first_triggered_unix := 500
         last_active_unix := some 500
         resolved_unix := none }]
      (generateAlertKey "h1" "ping_fail" (some "10.0.0.9")) true (some 100) 1000
      = false := by
    rw [pingFailPersist_eq]
    norm_num
  unfold checkPingFail
  dsimp only
  rw [show (decide ((("timeout" : String)) = "timeout") ||
    decide ((("timeout" : String)) = "error")) = true by decide]
  rw [hpersist]
  unfold update_or_insert_alert
  rw [if_neg (by simp)]
  simp [hkey]

/-- C2 (amended): the ping_fail decision depends only on the latest probe —
active iff the probe is a failure AND its timestamp is truthy and within the
5-minute window before now.  A failing probe within the window opens/keeps the
alert active (inserting a row if absent); a failing probe older than the
window does not open the alert, and it moreover RESOLVES an already-active
alert rather than keeping it active (the already-active disjunct of the claim
has no effect). -/
theorem C2_ping_fail_window_amended :
    (∀ (tbl tbl' : List AlertRow) (key : String) (failing : Bool) (ts : Option ℚ)
        (now : ℚ),
      pingFailPersist tbl key failing ts now = pingFailPersist tbl' key failing ts now) ∧
    (∀ (tbl : List AlertRow) (key : String) (failing : Bool) (ts : Option ℚ) (now : ℚ),
      pingFailPersist tbl key failing ts now = true ↔
        failing = true ∧ ∃ t, ts = some t ∧ t ≠ 0 ∧ now - 5 * 60 < t) ∧
    (∀ (tbl : List AlertRow) (h target : String) (pd : PingData) (now : ℚ)
        (r' : AlertRow),
      pingFailPersist tbl (generateAlertKey h "ping_fail" (some target))
        (decide (pd.status = "timeout") || decide (pd.status = "error"))
        pd.timestamp now = true →
      r' ∈ checkPingFail tbl h target pd now →
      r'.alert_key = generateAlertKey h "ping_fail" (some target) →
      r'.status = AlertStatus.active) ∧
    (∀ (tbl : List AlertRow) (h target : String) (pd : PingData) (now : ℚ),
      pingFailPersist tbl (generateAlertKey h "ping_fail" (some target))
        (decide (pd.status = "timeout") || decide (pd.status = "error"))
        pd.timestamp now = true →
      (tbl.find? (fun r =>
        r.alert_key = generateAlertKey h "ping_fail" (some target))).isSome = false →
      checkPingFail tbl h target pd now = tbl ++
        [{ alert_key := generateAlertKey h "ping_fail" (some target)
           hostname := h
           alert_type := "ping_fail"
           specific_target := some target
           status := AlertStatus.active
           message := "Ping to " ++ target ++ " failed (Status: " ++ pd.status ++ ")"
           current_value := some 1
           threshold_value := some 1
           first_triggered_unix := now
           last_active_unix := some now
           resolved_unix := none }]) ∧
    (∀ (tbl : List AlertRow) (h target : String) (pd : PingData) (now : ℚ),
      pingFailPersist tbl (generateAlertKey h "ping_fail" (some target))
        (decide (pd.status = "timeout") || decide (pd.status = "error"))
        pd.timestamp now = false →
      ((checkPingFail tbl h target pd now).map (fun r => r.alert_key) =
        tbl.map (fun r => r.alert_key)) ∧
      (∀ r ∈ tbl, r.alert_key = generateAlertKey h "ping_fail" (some target) →
        r.status = AlertStatus.active →
        { r with status := AlertStatus.resolved, resolved_unix := some now } ∈
          checkPingFail tbl h target pd now)) := by
  refine ⟨?_, ?_, ?_, ?_, ?_⟩
  · intro tbl tbl' key failing ts now
    rw [pingFailPersist_eq, pingFailPersist_eq]
  · intro tbl key failing ts now
    rw [pingFailPersist_eq]
    cases failing with
    | false => simp
    | true =>
        cases ts with
        | none => simp
        | some t => simp
  · intro tbl h target pd now r' hp hr' hk
    unfold checkPingFail at hr'
    dsimp only at hr'
    rw [hp] at hr'
    exact update_alert_triggered_active h now tbl _ "ping_fail" _ (some _) (some 1)
      (some target) r' hr' hk
  · intro tbl h target pd now hp hfind
    have hfail : (decide (pd.status = "timeout") || decide (pd.status = "error"))
        = true := by
      have h2 := hp
      rw [pingFailPersist_eq] at h2
      simp only [Bool.and_eq_true] at h2
      exact h2.1
    unfold checkPingFail
    dsimp only
    rw [hp, hfail]
    simp only [if_pos rfl]
    exact update_alert_insert h now tbl _ "ping_fail" _ (some 1) (some 1)
      (some target) hfind
  · intro tbl h target pd now hp
    constructor
    · unfold checkPingFail
      dsimp only
      rw [hp]
      exact update_alert_untriggered_keys h now tbl _ "ping_fail" _ (some _) (some 1)
        (some target)
    · intro r hr hk hs
      unfold checkPingFail
      dsimp only
      rw [hp]
      exact update_alert_resolve_mem h now tbl _ "ping_fail" _ (some _) (some 1)
        (some target) r hr hk hs

/-- Witness for the amended C2 at concrete probes: persistence is
table-independent; a failing probe 50 s old (timestamp 950, now 1000) is
within the window; and it opens a fresh active alert when none exists. -/
theorem C2_ping_fail_window_amended_witness :
    pingFailPersist [] "h1_ping_fail_10.0.0.9" true (some 950) 1000 =
      pingFailPersist
        [{ alert_key := "x", hostname := "h", alert_type := "cpu_high"
           specific_target := none, status := AlertStatus.active, message := "m"
           current_value := none, threshold_value := none, first_triggered_unix := 0
           last_active_unix := none, resolved_unix := none }]
        "h1_ping_fail_10.0.0.9" true (some 950) 1000 ∧
    pingFailPersist [] "h1_ping_fail_10.0.0.9" true (some 950) 1000 = true ∧
    checkPingFail [] "h1" "10.0.0.9" ⟨"timeout", none, some 950⟩ 1000 = [] ++
      [{ alert_key := generateAlertKey "h1" "ping_fail" (some "10.0.0.9")
         hostname := "h1"
         alert_type := "ping_fail"
         specific_target := some "10.0.0.9"
         status := AlertStatus.active
         message := "Ping to " ++ "10.0.0.9" ++ " failed (Status: " ++
           ("timeout" : String) ++ ")"
         current_value := some 1
         threshold_value := some 1
         first_triggered_unix := 1000
         last_active_unix := some 1000
         resolved_unix := none }] :=
  ⟨C2_ping_fail_window_amended.1 [] _ "h1_ping_fail_10.0.0.9" true (some 950) 1000,
   (C2_ping_fail_window_amended.2.1 [] "h1_ping_fail_10.0.0.9" true (some 950)
      1000).mpr ⟨rfl, 950, rfl, by norm_num, by norm_num⟩,
   C2_ping_fail_window_amended.2.2.2.1 [] "h1" "10.0.0.9" ⟨"timeout", none, some 950⟩
     1000
     ((C2_ping_fail_window_amended.2.1 [] _ _ (some 950) 1000).mpr
       ⟨by decide, 950, rfl, by norm_num, by norm_num⟩)
     (by decide)⟩

/-! ## Ingestion & Snapshot Manager (simple_ui_collector.py `receive_agent_data`)

The `agents` upsert and the `metrics` insert run in one SQLite transaction: a
storage error rolls both back and the request returns 500.  The in-memory
snapshot update and the alert evaluation run after the commit; their failures
are logged and the request still returns 200 (alert updates commit per key on
their own, see `update_or_insert_alert`).  The unused `tags` column and the
JSON blob columns not consumed by the modelled queries are elided. -/

/-- Python `s.strip()`. -/
def pyStrip (s : String) : String :=
  (((s.toList.dropWhile Char.isWhitespace).reverse.dropWhile
    Char.isWhitespace).reverse).asString

/-- Python `x or default` for an optional string (None and "" are falsy). -/
def pyOr (o : Option String) (d : String) : String :=
  match o with
  | some s => if s = "" then d else s
  | none => d

/-- One dotted-quad octet: digits only, no leading zero (except "0"), ≤ 255. -/
def isIpOctet (s : String) : Bool :=
  let cs := s.toList
  decide (cs ≠ []) && cs.all Char.isDigit && decide (cs.length ≤ 3) &&
    (decide (cs.length = 1) || decide (cs.headD '0' ≠ '0')) &&
    decide ((cs.foldl (fun n c => n * 10 + (c.toNat - 48)) 0) ≤ 255)

/-- Model of the `ipaddress.ip_address` validation for the deployment's IPv4
dotted-quad addresses (IPv6 acceptance elided). -/
def isValidIP (s : String) : Bool :=
  match pySplit s "." with
  | [a, b, c, d] => isIpOctet a && isIpOctet b && isIpOctet c && isIpOctet d
  | _ => false

/-- One row of the `agents` table. -/
structure AgentsRow where
  hostname : String
  agent_ip : String
  first_seen : ℚ
  last_seen : ℚ
deriving DecidableEq, Repr

/-- One row of the `metrics` table (fields consumed by the modelled
endpoints; the remaining JSON blobs are pass-through). -/
structure MetricsRow where
  hostname : String
  timestamp_utc : String
  timestamp_unix : ℚ
  interval_sec : ℚ
  cpu_percent : Option ℚ
  mem_percent : Option ℚ
  peer_traffic : List (String × Option ℚ)
deriving DecidableEq, Repr

/-- The collector-side view of one POSTed report. -/
structure IngestPayload where
  hostname : Option String
  agent_ip : Option String
  timestamp_utc : Option String
  interval_sec : Option ℚ
  cpu_percent : Option ℚ
  mem_percent : Option ℚ
  peer_traffic : List (String × Option ℚ)
deriving DecidableEq, Repr

/-- `latest_agent_snapshot[hostname]`. -/
structure SnapshotEntry where
  last_seen : ℚ
  latest_metrics : IngestPayload
deriving DecidableEq, Repr

structure CollectorState where
  agents : List AgentsRow
  metrics : List MetricsRow
  snapshot : List (String × SnapshotEntry)
deriving DecidableEq, Repr

/-- Python dict assignment `d[k] = v`. -/
def aset {α : Type} (l : List (String × α)) (k : String) (v : α) :
    List (String × α) :=
  if (l.find? (fun q => q.1 = k)).isSome then
    l.map (fun q => if q.1 = k then (k, v) else q)
  else l ++ [(k, v)]

/-- Hostname defaulting: missing/blank hostname becomes
`ip_<agent_ip or remote_addr>`. -/
def resolvedHostname (p : IngestPayload) (remote_addr : String) : String :=
  match p.hostname with
  | some h => if pyStrip h = "" then "ip_" ++ pyOr p.agent_ip remote_addr else h
  | none => "ip_" ++ pyOr p.agent_ip remote_addr

/-- IP defaulting: missing/empty agent_ip becomes the transport-observed
address. -/
def resolvedIp (p : IngestPayload) (remote_addr : String) : String :=
  pyOr p.agent_ip remote_addr

/-- The agents UPSERT: insert on a new hostname with first_seen = last_seen =
now; on conflict refresh agent_ip and last_seen only. -/
def upsertAgent (agents : List AgentsRow) (hostname agent_ip : String) (now : ℚ) :
    List AgentsRow :=
  if (agents.find? (fun r => r.hostname = hostname)).isSome then
    agents.map (fun r =>
      if r.hostname = hostname then { r with agent_ip := agent_ip, last_seen := now }
      else r)
  else
    agents ++ [{ hostname := hostname, agent_ip := agent_ip, first_seen := now
                 last_seen := now }]

/-- `/data` POST handler.  `metricsInsertOk` injects a storage failure on the
metric insert (the transaction is rolled back and 500 returned);
`snapshotOk`/`alertsOk` inject post-commit failures, which are logged and do
not fail the request. -/
def receive_agent_data (st : CollectorState) (p : IngestPayload)
    (remote_addr : String) (now : ℚ) (utcnow_str : String)
    (metricsInsertOk snapshotOk alertsOk : Bool) : CollectorState × ℕ :=
  let hostname := resolvedHostname p remote_addr
  let agent_ip := resolvedIp p remote_addr
  if ¬ isValidIP agent_ip then (st, 400)
  else
    let utc_timestamp_str := p.timestamp_utc.getD utcnow_str
    let interval := p.interval_sec.getD (-1)
    let newAgents := upsertAgent st.agents hostname agent_ip now
    let row : MetricsRow :=
      { hostname := hostname
        timestamp_utc := utc_timestamp_str
        timestamp_unix := now
        interval_sec := interval
        cpu_percent := p.cpu_percent
        mem_percent := p.mem_percent
        peer_traffic := p.peer_traffic }
    if metricsInsertOk then
      let st1 : CollectorState :=
        { st with agents := newAgents, metrics := st.metrics ++ [row] }
      let st2 := if snapshotOk then
          { st1 with snapshot := aset st1.snapshot hostname ⟨now, p⟩ }
        else st1
      (st2, 200)
    else (st, 500)

/-- C4: a storage failure on the metric-point insert rolls the whole ingestion
back (neither the AgentRecord upsert nor the MetricPoint persists, the state
is exactly the pre-request one) and returns 500; post-commit snapshot or alert
failures leave the durable write intact and the request returns 200. -/
theorem C4_ingestion_error_handling (st : CollectorState) (p : IngestPayload)
    (remote_addr : String) (now : ℚ) (utcnow_str : String) (snapOk alertOk : Bool)
    (hvalid : isValidIP (resolvedIp p remote_addr) = true) :
    receive_agent_data st p remote_addr now utcnow_str false snapOk alertOk =
      (st, 500) ∧
    (receive_agent_data st p remote_addr now utcnow_str true snapOk alertOk).2 = 200 ∧
    (receive_agent_data st p remote_addr now utcnow_str true snapOk alertOk).1.agents =
      upsertAgent st.agents (resolvedHostname p remote_addr)
        (resolvedIp p remote_addr) now ∧
    (receive_agent_data st p remote_addr now utcnow_str true snapOk alertOk).1.metrics =
      st.metrics ++
        [{ hostname := resolvedHostname p remote_addr
           timestamp_utc := p.timestamp_utc.getD utcnow_str
           timestamp_unix := now
           interval_sec := p.interval_sec.getD (-1)
           cpu_percent := p.cpu_percent
           mem_percent := p.mem_percent
           peer_traffic := p.peer_traffic }] := by
  unfold receive_agent_data
  simp only [hvalid]
  refine ⟨rfl, ?_, ?_, ?_⟩ <;> cases snapOk <;> rfl

/-- Witness for C4 at a concrete request. -/
theorem C4_ingestion_error_handling_witness :
    receive_agent_data ⟨[], [], []⟩
      ⟨some "h1", some "10.0.0.1", some "2024-01-01T00:00:00Z", some 2, some 50,
        some 60, []⟩ "10.0.0.1" 1000 "utc" false true true = (⟨[], [], []⟩, 500) ∧
    (receive_agent_data ⟨[], [], []⟩
      ⟨some "h1", some "10.0.0.1", some "2024-01-01T00:00:00Z", some 2, some 50,
        some 60, []⟩ "10.0.0.1" 1000 "utc" true true true).2 = 200 :=
  ⟨(C4_ingestion_error_handling ⟨[], [], []⟩
      ⟨some "h1", some "10.0.0.1", some "2024-01-01T00:00:00Z", some 2, some 50,
        some 60, []⟩ "10.0.0.1" 1000 "utc" true true (by decide)).1,
   (C4_ingestion_error_handling ⟨[], [], []⟩
      ⟨some "h1", some "10.0.0.1", some "2024-01-01T00:00:00Z", some 2, some 50,
        some 60, []⟩ "10.0.0.1" 1000 "utc" true true (by decide)).2.1⟩

theorem upsertAgent_last_seen (agents : List AgentsRow) (hostname agent_ip : String)
    (now : ℚ) (r' : AgentsRow) (hr' : r' ∈ upsertAgent agents hostname agent_ip now)
    (hh : r'.hostname = hostname) : r'.last_seen = now := by
  unfold upsertAgent at hr'
  by_cases hfind : (agents.find? (fun r => r.hostname = hostname)).isSome = true
  · rw [if_pos hfind] at hr'
    rcases List.mem_map.1 hr' with ⟨r, hr, hfr⟩
    by_cases hrh : r.hostname = hostname
    · rw [if_pos hrh] at hfr
      subst hfr
      rfl
    · rw [if_neg hrh] at hfr
      subst hfr
      exact absurd hh hrh
  · rw [if_neg hfind] at hr'
    rcases List.mem_append.1 hr' with hin | hnew
    · have hall := forall_not_of_findIsSome_false agents
        (fun r => r.hostname = hostname) (by simpa using hfind) r' hin
      simp only [decide_eq_false_iff_not] at hall
      exact absurd hh hall
    · simp only [List.mem_singleton] at hnew
      subst hnew
      rfl

/-- C10: the AgentRecord's times and the MetricPoint's `timestamp_unix` come
from the collector's clock (`now`) at ingestion time; the report's own
timestamp is stored only as the separate `timestamp_utc` string.  In
particular the stored unix timestamp is the same whatever
`timestamp_utc` the agent sent. -/
theorem C10_collector_clock (st : CollectorState) (p : IngestPayload)
    (remote_addr : String) (now : ℚ) (utcnow_str : String) (snapOk alertOk : Bool)
    (hvalid : isValidIP (resolvedIp p remote_addr) = true) :
    ((receive_agent_data st p remote_addr now utcnow_str true snapOk
        alertOk).1.metrics.drop st.metrics.length).map (fun m => m.timestamp_unix) =
      [now] ∧
    ((receive_agent_data st p remote_addr now utcnow_str true snapOk
        alertOk).1.metrics.drop st.metrics.length).map (fun m => m.timestamp_utc) =
      [p.timestamp_utc.getD utcnow_str] ∧
    (∀ r' ∈ (receive_agent_data st p remote_addr now utcnow_str true snapOk
        alertOk).1.agents,
      r'.hostname = resolvedHostname p remote_addr → r'.last_seen = now) ∧
    ((st.agents.find? (fun r =>
        r.hostname = resolvedHostname p remote_addr)).isSome = false →
      (receive_agent_data st p remote_addr now utcnow_str true snapOk
        alertOk).1.agents =
        st.agents ++ [{ hostname := resolvedHostname p remote_addr
                        agent_ip := resolvedIp p remote_addr
                        first_seen := now, last_seen := now }]) ∧
    (∀ ts' : String,
      ((receive_agent_data st { p with timestamp_utc := some ts' } remote_addr now
          utcnow_str true snapOk alertOk).1.metrics.drop st.metrics.length).map
        (fun m => m.timestamp_unix) = [now]) := by
  have hmet : ∀ q : IngestPayload, isValidIP (resolvedIp q remote_addr) = true →
      (receive_agent_data st q remote_addr now utcnow_str true snapOk
        alertOk).1.metrics =
      st.metrics ++
        [{ hostname := resolvedHostname q remote_addr
           timestamp_utc := q.timestamp_utc.getD utcnow_str
           timestamp_unix := now
           interval_sec := q.interval_sec.getD (-1)
           cpu_percent := q.cpu_percent
           mem_percent := q.mem_percent
           peer_traffic := q.peer_traffic }] := by
    intro q hq
    unfold receive_agent_data
    simp only [hq]
    cases snapOk <;> rfl
  have hagents : (receive_agent_data st p remote_addr now utcnow_str true snapOk
      alertOk).1.agents =
      upsertAgent st.agents (resolvedHostname p remote_addr)
        (resolvedIp p remote_addr) now := by
    unfold receive_agent_data
    simp only [hvalid]
    cases snapOk <;> rfl
  refine ⟨?_, ?_, ?_, ?_, ?_⟩
  · rw [hmet p hvalid]
    simp
  · rw [hmet p hvalid]
    simp
  · intro r' hr' hh
    rw [hagents] at hr'
    exact upsertAgent_last_seen st.agents _ _ now r' hr' hh
  · intro hfind
    rw [hagents]
    unfold upsertAgent
    rw [if_neg (by simp [hfind])]
  · intro ts'
    rw [hmet { p with timestamp_utc := some ts' } (by simpa [resolvedIp] using hvalid)]
    simp

/-- Witness for C10 at a concrete request carrying an agent-side timestamp. -/
theorem C10_collector_clock_witness :
    ((receive_agent_data ⟨[], [], []⟩
        ⟨some "h1", some "10.0.0.1", some "1999-01-01T00:00:00Z", some 2, some 50,
          some 60, []⟩ "10.0.0.1" 1000 "utc" true true
        true).1.metrics.drop ([] : List MetricsRow).length).map
      (fun m => m.timestamp_unix) = [1000] ∧
    ((receive_agent_data ⟨[], [], []⟩
        ⟨some "h1", some "10.0.0.1", some "1999-01-01T00:00:00Z", some 2, some 50,
          some 60, []⟩ "10.0.0.1" 1000 "utc" true true
        true).1.metrics.drop ([] : List MetricsRow).length).map
      (fun m => m.timestamp_utc) = [(some "1999-01-01T00:00:00Z").getD "utc"] :=
  ⟨(C10_collector_clock ⟨[], [], []⟩
      ⟨some "h1", some "10.0.0.1", some "1999-01-01T00:00:00Z", some 2, some 50,
        some 60, []⟩ "10.0.0.1" 1000 "utc" true true (by decide)).1,
   (C10_collector_clock ⟨[], [], []⟩
      ⟨some "h1", some "10.0.0.1", some "1999-01-01T00:00:00Z", some 2, some 50,
        some 60, []⟩ "10.0.0.1" 1000 "utc" true true (by decide)).2.1⟩

/-! ## Topology Aggregator (simple_ui_collector.py `get_all_peer_flows`)

Nodes are keyed by id in `nodes_dict` (collector first, then active agents by
IP); each active host's latest fresh metric row contributes one link per
parseable `src_to_dst` flow carrying an `Mbps` field.  Unknown endpoint IPs
get nodes created on the fly before the link guard runs. -/

structure GraphNode where
  id : String
  name : String
  hostname : Option String
  is_collector : Bool
deriving DecidableEq, Repr

structure GraphLink where
  source : String
  target : String
  rate_mbps : ℚ
  type : String
deriving DecidableEq, Repr

/-- `source_ip, target_ip = flow_key.split('_to_')` — `None` models the
`ValueError` of unpacking anything but exactly two parts. -/
def parseFlowKey (key : String) : Option (String × String) :=
  match pySplit key "_to_" with
  | [a, b] => some (a, b)
  | _ => none

def maxQ : List ℚ → Option ℚ
  | [] => none
  | t :: rest =>
      match maxQ rest with
      | none => some t
      | some m => some (max t m)

/-- `SELECT hostname, MAX(timestamp_unix) ... GROUP BY hostname` for one
host. -/
def latestTs (metrics : List MetricsRow) (h : String) : Option ℚ :=
  maxQ ((metrics.filter (fun m => m.hostname = h)).map (fun m => m.timestamp_unix))

/-- Active agent rows: `last_seen >= now - STALE_THRESHOLD_SECONDS` with the
threshold 120 s. -/
def activeHostRows (now : ℚ) (agents : List AgentsRow) : List AgentsRow :=
  agents.filter (fun r => now - 120 ≤ r.last_seen)

/-- Is this metric row fetched: its host is active and the row carries that
host's latest timestamp, itself fresh enough. -/
def isFetched (hostList : List String) (metrics : List MetricsRow)
    (stale_limit_time : ℚ) (m : MetricsRow) : Bool :=
  hostList.any (fun h => decide (m.hostname = h) &&
    (match latestTs metrics h with
     | some ts => decide (stale_limit_time ≤ ts) && decide (m.timestamp_unix = ts)
     | none => false))

/-- The metric rows the peer-flow query actually reads. -/
def fetchedRows (now : ℚ) (agents : List AgentsRow) (metrics : List MetricsRow) :
    List MetricsRow :=
  metrics.filter (fun m =>
    isFetched ((activeHostRows now agents).map (fun r => r.hostname)) metrics
      (now - 120) m)

/-- Add a node for a flow endpoint if it is not the collector id and not
already present. -/
def flowAddNode (collectorId : String) (ipToHost : List (String × String))
    (nodes : List (String × GraphNode)) (ip : String) : List (String × GraphNode) :=
  if ip ≠ collectorId ∧ (alookup nodes ip).isNone then
    nodes ++ [(ip, { id := ip, name := (alookup ipToHost ip).getD ip
                     hostname := alookup ipToHost ip, is_collector := false })]
  else nodes

/-- The link one flow entry contributes (none if the `Mbps` field is missing
or the key does not split into exactly two parts). -/
def flowLink (flow : String × Option ℚ) : Option GraphLink :=
  match flow.2 with
  | none => none
  | some rate =>
      match parseFlowKey flow.1 with
      | none => none
      | some (s, t) =>
          some { source := s, target := t, rate_mbps := pyRound rate 3
                 type := "peer_traffic" }

/-- Processing of one flow entry of a fetched row. -/
def processFlow (collectorId : String) (ipToHost : List (String × String))
    (st : List (String × GraphNode) × List GraphLink) (flow : String × Option ℚ) :
    List (String × GraphNode) × List GraphLink :=
  match flow.2 with
  | none => st
  | some rate =>
      match parseFlowKey flow.1 with
      | none => st
      | some (source_ip, target_ip) =>
          let rate_mbps := pyRound rate 3
          let nodes1 := flowAddNode collectorId ipToHost st.1 source_ip
          let nodes2 := flowAddNode collectorId ipToHost nodes1 target_ip
          if (alookup nodes2 source_ip).isSome ∧ (alookup nodes2 target_ip).isSome then
            (nodes2, st.2 ++ [{ source := source_ip, target := target_ip
                                rate_mbps := rate_mbps, type := "peer_traffic" }])
          else (nodes2, st.2)

/-- Processing of one fetched metric row's peer-traffic map. -/
def processRow (collectorId : String) (ipToHost : List (String × String))
    (st : List (String × GraphNode) × List GraphLink) (m : MetricsRow) :
    List (String × GraphNode) × List GraphLink :=
  m.peer_traffic.foldl (processFlow collectorId ipToHost) st

/-- All links a fetched row contributes. -/
def rowLinks (m : MetricsRow) : List GraphLink :=
  m.peer_traffic.filterMap flowLink

/-- The `/api/all_peer_flows` endpoint. -/
def get_all_peer_flows (now : ℚ) (collectorId collectorHostname : String)
    (agents : List AgentsRow) (metrics : List MetricsRow) :
    List GraphNode × List GraphLink :=
  let stale_limit_time := now - 120
  let nodes0 : List (String × GraphNode) :=
    [(collectorId, { id := collectorId, name := collectorHostname
                     hostname := some collectorHostname, is_collector := true })]
  let active_host_rows := activeHostRows now agents
  if active_host_rows.isEmpty then (nodes0.map Prod.snd, [])
  else
    let host_list := active_host_rows.map (fun r => r.hostname)
    let ip_to_hostname_map := active_host_rows.foldl
      (fun m r => if r.agent_ip = "" then m else aset m r.agent_ip r.hostname) []
    let nodes1 := active_host_rows.foldl (fun nd r =>
      if r.agent_ip ≠ collectorId ∧ (alookup nd r.agent_ip).isNone then
        nd ++ [(r.agent_ip, { id := r.agent_ip, name := r.hostname
                              hostname := some r.hostname, is_collector := false })]
      else nd) nodes0
    let fetched := metrics.filter (fun m =>
      isFetched host_list metrics stale_limit_time m)
    let res := fetched.foldl (processRow collectorId ip_to_hostname_map) (nodes1, [])
    (res.1.map Prod.snd, res.2)

theorem alookup_append_isSome {α : Type} (l l' : List (String × α)) (k : String)
    (h : (alookup l k).isSome = true) : (alookup (l ++ l') k).isSome = true := by
  induction l with
  | nil => simp [alookup] at h
  | cons p t ih =>
      by_cases hp : p.1 = k
      · simp [alookup, List.find?_cons, hp]
      · have hd : (decide (p.1 = k)) = false := decide_eq_false hp
        simp only [alookup, List.cons_append, List.find?_cons, hd] at h ⊢
        exact ih h

theorem alookup_append_single_self {α : Type} (l : List (String × α)) (k : String)
    (v : α) (h : (alookup l k).isSome = false) :
    alookup (l ++ [(k, v)]) k = some v := by
  induction l with
  | nil => simp [alookup]
  | cons p t ih =>
      by_cases hp : p.1 = k
      · simp [alookup, List.find?_cons, hp] at h
      · have hd : (decide (p.1 = k)) = false := decide_eq_false hp
        simp only [alookup, List.cons_append, List.find?_cons, hd] at h ⊢
        exact ih h

theorem flowAddNode_isSome_self (collectorId : String)
    (ipToHost : List (String × String)) (nodes : List (String × GraphNode))
    (ip : String) (hcol : (alookup nodes collectorId).isSome = true) :
    (alookup (flowAddNode collectorId ipToHost nodes ip) ip).isSome = true := by
  unfold flowAddNode
  by_cases h1 : ip = collectorId
  · rw [if_neg (by simp [h1])]
    rw [h1]
    exact hcol
  · by_cases h2 : (alookup nodes ip).isNone = true
    · rw [if_pos ⟨h1, h2⟩]
      rw [alookup_append_single_self nodes ip _ (by simpa [Option.isNone] using h2)]
      rfl
    · rw [if_neg (by simp [h1, h2])]
      revert h2
      cases h : alookup nodes ip <;> simp [Option.isNone]

theorem flowAddNode_mono (collectorId : String) (ipToHost : List (String × String))
    (nodes : List (String × GraphNode)) (ip k : String)
    (h : (alookup nodes k).isSome = true) :
    (alookup (flowAddNode collectorId ipToHost nodes ip) k).isSome = true := by
  unfold flowAddNode
  split
  · exact alookup_append_isSome nodes _ k h
  · exact h

theorem processFlow_spec (collectorId : String) (ipToHost : List (String × String))
    (st : List (String × GraphNode) × List GraphLink) (flow : String × Option ℚ)
    (hcol : (alookup st.1 collectorId).isSome = true) :
    (processFlow collectorId ipToHost st flow).2 = st.2 ++ (flowLink flow).toList ∧
    (∀ k, (alookup st.1 k).isSome = true →
      (alookup (processFlow collectorId ipToHost st flow).1 k).isSome = true) := by
  unfold processFlow flowLink
  cases hf : flow.2 with
  | none => exact ⟨by simp, fun k hk => hk⟩
  | some rate =>
      cases hp : parseFlowKey flow.1 with
      | none => exact ⟨by simp, fun k hk => hk⟩
      | some pr =>
          obtain ⟨s, t⟩ := pr
          dsimp only
          have hs1 : (alookup (flowAddNode collectorId ipToHost st.1 s) s).isSome
              = true := flowAddNode_isSome_self collectorId ipToHost st.1 s hcol
          have hcol1 : (alookup (flowAddNode collectorId ipToHost st.1 s)
              collectorId).isSome = true :=
            flowAddNode_mono collectorId ipToHost st.1 s collectorId hcol
          have hs2 : (alookup (flowAddNode collectorId ipToHost
              (flowAddNode collectorId ipToHost st.1 s) t) s).isSome = true :=
            flowAddNode_mono collectorId ipToHost _ t s hs1
          have ht2 : (alookup (flowAddNode collectorId ipToHost
              (flowAddNode collectorId ipToHost st.1 s) t) t).isSome = true :=
            flowAddNode_isSome_self collectorId ipToHost _ t hcol1
          rw [if_pos ⟨hs2, ht2⟩]
          refine ⟨by simp, ?_⟩
          intro k hk
          exact flowAddNode_mono collectorId ipToHost _ t k
            (flowAddNode_mono collectorId ipToHost _ s k hk)

theorem foldl_processFlow_spec (collectorId : String)
    (ipToHost : List (String × String)) (flows : List (String × Option ℚ))
    (st : List (String × GraphNode) × List GraphLink)
    (hcol : (alookup st.1 collectorId).isSome = true) :
    (flows.foldl (processFlow collectorId ipToHost) st).2 =
      st.2 ++ flows.filterMap flowLink ∧
    (∀ k, (alookup st.1 k).isSome = true →
      (alookup (flows.foldl (processFlow collectorId ipToHost) st).1 k).isSome
        = true) := by
  induction flows generalizing st with
  | nil => exact ⟨by simp, fun k hk => hk⟩
  | cons f rest ih =>
      obtain ⟨h1, h2⟩ := processFlow_spec collectorId ipToHost st f hcol
      obtain ⟨h3, h4⟩ := ih (processFlow collectorId ipToHost st f) (h2 _ hcol)
      constructor
      · rw [List.foldl_cons, h3, h1]
        cases hfl : flowLink f <;> simp [List.filterMap_cons, hfl]
      · intro k hk
        rw [List.foldl_cons]
        exact h4 k (h2 k hk)

theorem foldl_processRow_spec (collectorId : String)
    (ipToHost : List (String × String)) (rows : List MetricsRow)
    (st : List (String × GraphNode) × List GraphLink)
    (hcol : (alookup st.1 collectorId).isSome = true) :
    (rows.foldl (processRow collectorId ipToHost) st).2 =
      st.2 ++ rows.flatMap rowLinks ∧
    (alookup (rows.foldl (processRow collectorId ipToHost) st).1 collectorId).isSome
      = true := by
  induction rows generalizing st with
  | nil => exact ⟨by simp, hcol⟩
  | cons m rest ih =>
      obtain ⟨h1, h2⟩ := foldl_processFlow_spec collectorId ipToHost m.peer_traffic
        st hcol
      obtain ⟨h3, h4⟩ := ih (processRow collectorId ipToHost st m) (h2 _ hcol)
      constructor
      · rw [List.foldl_cons, h3]
        show (processRow collectorId ipToHost st m).2 ++ _ = _
        unfold processRow
        rw [h1]
        simp [rowLinks, List.flatMap_cons, List.append_assoc]
      · rw [List.foldl_cons]
        exact h4

theorem foldl_agentNodes_mono (collectorId : String) (rows : List AgentsRow)
    (nd : List (String × GraphNode)) (k : String)
    (h : (alookup nd k).isSome = true) :
    (alookup (rows.foldl (fun nd r =>
      if r.agent_ip ≠ collectorId ∧ (alookup nd r.agent_ip).isNone then
        nd ++ [(r.agent_ip, { id := r.agent_ip, name := r.hostname
                              hostname := some r.hostname, is_collector := false })]
      else nd) nd) k).isSome = true := by
  induction rows generalizing nd with
  | nil => exact h
  | cons r rest ih =>
      rw [List.foldl_cons]
      apply ih
      split
      · exact alookup_append_isSome nd _ k h
      · exact h

/-- C1 counterexample: host h1 (IP 10.0.0.1) is the only active host; its
latest metric reports the flow `10.9.9.9_to_10.8.8.8`, neither endpoint of
which is an agent IP.  The topology still emits that edge, and creates nodes
for both phantom IPs, instead of dropping them. -/
theorem C1_counterexample :
    (get_all_peer_flows 1000 "COLL" "COLL"
      [⟨"h1", "10.0.0.1", 0, 1000⟩]
      [⟨"h1", "u", 1000, 2, none, none, [("10.9.9.9_to_10.8.8.8", some 5)]⟩]).2 =
      [{ source := "10.9.9.9", target := "10.8.8.8", rate_mbps := 5
         type := "peer_traffic" }] ∧
    ((get_all_peer_flows 1000 "COLL" "COLL"
      [⟨"h1", "10.0.0.1", 0, 1000⟩]
      [⟨"h1", "u", 1000, 2, none, none, [("10.9.9.9_to_10.8.8.8", some 5)]⟩]).1.map
        (fun n => n.id)) = ["COLL", "10.0.0.1", "10.9.9.9", "10.8.8.8"] ∧
    (∀ r ∈ [(⟨"h1", "10.0.0.1", 0, 1000⟩ : AgentsRow)],
      r.agent_ip ≠ "10.9.9.9" ∧ r.agent_ip ≠ "10.8.8.8") := by
  have hparse : parseFlowKey "10.9.9.9_to_10.8.8.8" =
      some ("10.9.9.9", "10.8.8.8") := by decide
  have hrate : pyRound 5 3 = 5 := by norm_num [pyRound, roundHalfEven]
  refine ⟨?_, ?_, by decide⟩ <;>
    (norm_num [get_all_peer_flows, activeHostRows, aset, alookup, isFetched,
      latestTs, maxQ, processRow, processFlow, flowAddNode, flowLink, hparse,
      hrate, List.filter, List.find?]
     simp)

/-- C1 (amended): the emitted peer-traffic links are exactly the parseable
`Mbps`-carrying flow entries of the fetched rows — the latest fresh metric
row of each active host — with the rate rounded to three decimals.  Whether
the flow's endpoint IPs resolve to active hosts plays no role: a flow key
referencing an IP with no active host still produces its edge (and a node for
the unknown IP), rather than being dropped. -/
theorem C1_topology_links_amended (now : ℚ) (collectorId collectorHostname : String)
    (agents : List AgentsRow) (metrics : List MetricsRow) :
    (get_all_peer_flows now collectorId collectorHostname agents metrics).2 =
      (fetchedRows now agents metrics).flatMap rowLinks := by
  unfold get_all_peer_flows fetchedRows
  by_cases hemp : (activeHostRows now agents).isEmpty = true
  · rw [if_pos hemp]
    have : activeHostRows now agents = [] := by
      revert hemp
      cases activeHostRows now agents <;> simp
    rw [this]
    simp [isFetched]
  · rw [if_neg hemp]
    have hcol : (alookup
        ([(collectorId, { id := collectorId, name := collectorHostname
                          hostname := some collectorHostname, is_collector := true })]
          : List (String × GraphNode)) collectorId).isSome = true := by
      simp [alookup, List.find?_cons]
    have hcol1 := foldl_agentNodes_mono collectorId (activeHostRows now agents) _
      collectorId hcol
    obtain ⟨h1, _⟩ := foldl_processRow_spec collectorId
      ((activeHostRows now agents).foldl
        (fun m r => if r.agent_ip = "" then m else aset m r.agent_ip r.hostname) [])
      (metrics.filter (fun m =>
        isFetched ((activeHostRows now agents).map (fun r => r.hostname)) metrics
          (now - 120) m))
      (_, []) hcol1
    rw [h1]
    simp

end Bandwidth
